/-
Verification of the ha-emulated-hue custom component
(`custom_components/ha_emulated_hue/`): a shallow embedding in Lean 4 of the
device registry (`hue_device_manager.py`), the Hue REST views and the
request/response pipeline (`hue_api.py`), the constants (`const.py`) and the
device record (`hue_device.py`), together with theorems settling the frozen
specification claims.

Conventions of the embedding:
* Python `float` time values (`time.time()`, the timeout constants) and the
  float-valued platform attributes are modelled as rationals (`ℚ`).
* Python `dict`s are modelled as association lists in insertion order
  (`dictInsert` replaces in place or appends, exactly as CPython dicts do;
  `dict.pop` removes the matching key).
* Hue device IDs are the decimal strings `str(n)` of positive integers in
  the source; `str` is injective on `Nat` and every membership test the
  source performs is exact string equality, so IDs are modelled as `Nat`.
* `round()` in Python 3 is round-half-to-even and `int()` truncates toward
  zero.  The source applies them to IEEE doubles of the form `(v/d)*m` with
  integer `v` and the constant denominators 254, 255, 100, 65535; for every
  integer `v` the true rational `v*m/d` is either exactly representable
  (the only half-integer tie, `127*255/254 = 127.5`, is) or at distance
  ≥ 1/510 from the nearest half-integer, far above the double rounding
  error, so the exact-rational models `roundHalfEvenInt`, `pyRound` and
  `truncDivInt` below agree with the source on every such input.  The
  `int()` truncations over denominator 65535 (the hue conversions) may read
  one lower in CPython when the exact quotient is an integer and the float
  rounds just below it; no claim inspects those fields, and the clamping
  that bounds them holds for every value.
* Persistence (`Store.async_save/async_load`) is an external collaborator;
  `_save_data` does not change the in-memory registry and failures are
  swallowed, so it is omitted from the registry transitions.
-/
import Mathlib

namespace EmulatedHue

/-! ## Constants (`const.py`) -/

/-- `const.py`: `HUE_API_USERNAME = "nouser"`. -/
def HUE_API_USERNAME : String := "nouser"

/-- `const.py`: `SUPPORTED_DOMAINS`, the domains a linked entity may belong to. -/
def SUPPORTED_DOMAINS : List String :=
  ["light", "switch", "fan", "cover", "climate", "media_player",
   "script", "scene", "input_boolean"]

/-- `const.py`: `HUE_API_STATE_BRI_MIN = 1`. -/
def HUE_API_STATE_BRI_MIN : Int := 1
/-- `const.py`: `HUE_API_STATE_BRI_MAX = 254`. -/
def HUE_API_STATE_BRI_MAX : Int := 254
/-- `const.py`: `HUE_API_STATE_HUE_MIN = 0`. -/
def HUE_API_STATE_HUE_MIN : Int := 0
/-- `const.py`: `HUE_API_STATE_HUE_MAX = 65535`. -/
def HUE_API_STATE_HUE_MAX : Int := 65535
/-- `const.py`: `HUE_API_STATE_SAT_MIN = 0`. -/
def HUE_API_STATE_SAT_MIN : Int := 0
/-- `const.py`: `HUE_API_STATE_SAT_MAX = 254`. -/
def HUE_API_STATE_SAT_MAX : Int := 254
/-- `const.py`: `HUE_API_STATE_CT_MIN = 153`. -/
def HUE_API_STATE_CT_MIN : Int := 153
/-- `const.py`: `HUE_API_STATE_CT_MAX = 500`. -/
def HUE_API_STATE_CT_MAX : Int := 500

/-- `const.py`: `CACHE_TIMEOUT = 2.0` (seconds a cached state entry is valid). -/
def CACHE_TIMEOUT : ℚ := 2
/-- `const.py`: `STATE_CHANGE_TIMEOUT = 5.0` (seconds to wait for a state
change after a service call). -/
def STATE_CHANGE_TIMEOUT : ℚ := 5

/-- `const.py`: `OFF_MAPS_TO_ON_DOMAINS = {"script", "scene"}`. -/
def OFF_MAPS_TO_ON_DOMAINS : List String := ["script", "scene"]

/-! ## Numeric helpers (Python semantics) -/

/-- Round-half-to-even of the exact fraction `n / d` (`d > 0` at every call
site): the value Python 3's `round()` produces on these quotients (see the
header note on float fidelity). -/
def roundHalfEvenInt (n d : Int) : Int :=
  let q := Int.fdiv n d
  let r := n - q * d
  if 2 * r < d then q
  else if d < 2 * r then q + 1
  else if q % 2 = 0 then q else q + 1

/-- Truncation toward zero of the exact fraction `n / d` (`d > 0`): Python
`int()` applied to these quotients. -/
def truncDivInt (n d : Int) : Int :=
  if 0 ≤ n then Int.fdiv n d else - Int.fdiv (-n) d

/-- Floor of a rational (`den` is positive, so `Int.fdiv num den` is the floor). -/
def ratFloor (q : ℚ) : Int := Int.fdiv q.num q.den

/-- Python 3 `round()` on a rational value: round half to even. -/
def pyRound (q : ℚ) : Int :=
  let f := ratFloor q
  let r := q - (f : ℚ)
  if r < 1/2 then f
  else if 1/2 < r then f + 1
  else if f % 2 = 0 then f else f + 1

/-- Python `int()` on a rational value: truncation toward zero. -/
def pyTrunc (q : ℚ) : Int :=
  if 0 ≤ q then ratFloor q else - ratFloor (-q)

/-- Collaborator `homeassistant.util.color.color_temperature_kelvin_to_mired`:
`math.floor(1000000 / kelvin)`.  (The source would raise on `kelvin = 0`;
in `ℚ` the quotient is 0, a value no platform entity reports.) -/
def color_temperature_kelvin_to_mired (kelvin : ℚ) : Int :=
  ratFloor (1000000 / kelvin)

/-- Collaborator `homeassistant.util.color.color_temperature_mired_to_kelvin`:
`math.floor(1000000 / mired)`. -/
def color_temperature_mired_to_kelvin (mired : ℚ) : Int :=
  ratFloor (1000000 / mired)

/-! ## Brightness unit converters (`hue_api.py` lines 945-952) -/

/-- `hue_api.py` `hue_brightness_to_hass`: convert Hue brightness 1..254 to
HA format 0..255, `min(255, round((value / HUE_API_STATE_BRI_MAX) * 255))`. -/
def hue_brightness_to_hass (value : Int) : Int :=
  min 255 (roundHalfEvenInt (value * 255) HUE_API_STATE_BRI_MAX)

/-- `hue_api.py` `hass_to_hue_brightness`: convert HA brightness 0..255 to
Hue 1..254 scale, `max(1, round((value / 255) * HUE_API_STATE_BRI_MAX))`. -/
def hass_to_hue_brightness (value : Int) : Int :=
  max 1 (roundHalfEvenInt (value * HUE_API_STATE_BRI_MAX) 255)

/-! ## Python dict/assoc-list helpers -/

/-- CPython dict assignment `d[k] = v`: replace in place when the key is
present, append otherwise. -/
def dictInsert [BEq κ] (k : κ) (v : α) : List (κ × α) → List (κ × α)
  | [] => [(k, v)]
  | (k', v') :: t => if k' == k then (k, v) :: t else (k', v') :: dictInsert k v t

/-- CPython `d.pop(k)`: drop the entry with the matching key. -/
def dictErase [BEq κ] (k : κ) : List (κ × α) → List (κ × α)
  | [] => []
  | (k', v') :: t => if k' == k then t else (k', v') :: dictErase k t

/-- Python truthiness of a `str`: nonempty. -/
def truthyStr (s : String) : Bool := s != ""

/-- Python truthiness of a `str | None` value (`if entity_id:`). -/
def truthyOptStr : Option String → Bool
  | some s => truthyStr s
  | none => false

/-- Python truthiness of an `int | None` value (`any((hue, sat))` members). -/
def truthyOptInt : Option Int → Bool
  | some v => v != 0
  | none => false

/-- Characters of `s` before the first `'.'`. -/
def takeUntilDot : List Char → List Char
  | [] => []
  | c :: t => if c = '.' then [] else c :: takeUntilDot t

/-- Python `entity_id.split(".")[0]`: the domain part of an entity id. -/
def domainOf (entity_id : String) : String := String.mk (takeUntilDot entity_id.data)

/-! ## Platform collaborator: color modes and feature flags
(`homeassistant.components.*`) -/

/-- `homeassistant.components.light.ColorMode`. -/
inductive ColorMode
  | unknown
  | onoff
  | brightness
  | color_temp
  | hs
  | xy
  | rgb
  | rgbw
  | rgbww
  | white
deriving Repr, DecidableEq

/-- Collaborator `light.brightness_supported`: some declared mode outside
{UNKNOWN, ONOFF} (false on an empty/absent list). -/
def brightness_supported (color_modes : List ColorMode) : Bool :=
  color_modes.any (fun m => !(m == .unknown || m == .onoff))

/-- Collaborator `light.color_supported`: some declared mode in
{HS, XY, RGB, RGBW, RGBWW}. -/
def color_supported (color_modes : List ColorMode) : Bool :=
  color_modes.any (fun m => m == .hs || m == .xy || m == .rgb || m == .rgbw || m == .rgbww)

/-- Collaborator `light.color_temp_supported`: COLOR_TEMP is declared. -/
def color_temp_supported (color_modes : List ColorMode) : Bool :=
  color_modes.contains .color_temp

/-- Collaborator flag `CoverEntityFeature.SET_POSITION = 4`. -/
def COVER_SET_POSITION : Nat := 4
/-- Collaborator flag `FanEntityFeature.SET_SPEED = 1`. -/
def FAN_SET_SPEED : Nat := 1
/-- Collaborator flag `MediaPlayerEntityFeature.VOLUME_SET = 4`. -/
def MEDIA_VOLUME_SET : Nat := 4
/-- Collaborator flag `ClimateEntityFeature.TARGET_TEMPERATURE = 1`. -/
def CLIMATE_TARGET_TEMPERATURE : Nat := 1
/-- Collaborator flag `LightEntityFeature.TRANSITION = 32`. -/
def LIGHT_TRANSITION : Nat := 32

/-- Python `entity_features & FLAG` used as a truth value (nonzero test). -/
def testFeature (features flag : Nat) : Bool := features &&& flag != 0

/-- Python `required_feature in features` on `IntFlag` values:
`features & required == required`. -/
def containsFeature (features flag : Nat) : Bool := features &&& flag == flag

/-! ## Platform entity snapshots (`homeassistant.core.State`) -/

/-- The attribute fields of a platform entity state that the component reads.
An absent key is `none`; `supported_features` defaults to 0 and
`supported_color_modes` to the empty list exactly as the source's
`attributes.get(..., default)` calls do. -/
structure Attributes where
  supported_features : Nat := 0
  supported_color_modes : List ColorMode := []
  brightness : Option Int := none
  hs_color : Option (ℚ × ℚ) := none
  color_temp_kelvin : Option ℚ := none
  temperature : Option ℚ := none
  humidity : Option ℚ := none
  media_volume_level : Option ℚ := none
  percentage : Option ℚ := none
  current_position : Option ℚ := none
deriving Repr, DecidableEq

/-- A platform entity snapshot: `homeassistant.core.State`. -/
structure EntityState where
  entity_id : String
  state : String
  attributes : Attributes := {}
deriving Repr, DecidableEq

/-- `State.domain`: the part of the entity id before the first dot. -/
def EntityState.domain (s : EntityState) : String := domainOf s.entity_id

/-- `hue_api.py` `_OFF_STATES.get(entity.domain, STATE_OFF)`: the state string
meaning "off" for a domain (`closed` for covers, `off` otherwise). -/
def offStateFor (domain : String) : String :=
  if domain = "cover" then "closed" else "off"

/-- `hue_api.py` `_hass_to_hue_state`: HA entity state to Hue on/off boolean,
`entity.state != _OFF_STATES.get(entity.domain, STATE_OFF)`. -/
def _hass_to_hue_state (entity : EntityState) : Bool :=
  entity.state != offStateFor entity.domain

/-! ## The Hue-shaped state dict -/

/-- The state dict flowing through `hue_api.py`: the `parsed` request dict and
the dict built by `_build_entity_state_dict` (the latter never carries
`xy`/`transitiontime`; in the source those keys are simply absent there,
and no reader touches them). `on` is always a bool in the source; the other
fields may be `None` (`is_on` models the dict key `"on"`, which Lean
reserves). -/
structure StateDict where
  is_on : Bool
  bri : Option Int := none
  hue : Option Int := none
  sat : Option Int := none
  ct : Option Int := none
  xy : Option (ℚ × ℚ) := none
  transitiontime : Option Int := none
deriving Repr, DecidableEq

/-- One clamp step of `_clamp_values`: `max(v_min, min(value, v_max))` on a
present value, no-op on `None`. -/
def clampOpt (lo hi : Int) : Option Int → Option Int
  | none => none
  | some v => some (max lo (min v hi))

/-- `hue_api.py` `_clamp_values` (lines 864-873): clamp `bri`, `hue`, `sat`
and `ct` into the Hue API ranges whenever they are present. -/
def _clamp_values (d : StateDict) : StateDict :=
  { d with
    bri := clampOpt HUE_API_STATE_BRI_MIN HUE_API_STATE_BRI_MAX d.bri,
    hue := clampOpt HUE_API_STATE_HUE_MIN HUE_API_STATE_HUE_MAX d.hue,
    sat := clampOpt HUE_API_STATE_SAT_MIN HUE_API_STATE_SAT_MAX d.sat,
    ct := clampOpt HUE_API_STATE_CT_MIN HUE_API_STATE_CT_MAX d.ct }

/-- `hue_api.py` `_build_entity_state_dict` (lines 807-861): build a state
dict from the live HA entity state. -/
def _build_entity_state_dict (entity : EntityState) : StateDict :=
  let is_on := _hass_to_hue_state entity
  let attributes := entity.attributes
  let d : StateDict :=
    if is_on then
      let bri := hass_to_hue_brightness (attributes.brightness.getD 0)
      let hue_sat : Int × Int :=
        match attributes.hs_color with
        | some (h, s) =>
          (pyTrunc ((h / 360) * (HUE_API_STATE_HUE_MAX : ℚ)),
           pyTrunc ((s / 100) * (HUE_API_STATE_SAT_MAX : ℚ)))
        | none => (HUE_API_STATE_HUE_MIN, HUE_API_STATE_SAT_MIN)
      let ct : Int :=
        match attributes.color_temp_kelvin with
        | some kelvin => color_temperature_kelvin_to_mired kelvin
        | none => 0
      { is_on := is_on, bri := some bri, hue := some hue_sat.1,
        sat := some hue_sat.2, ct := some ct }
    else
      { is_on := is_on, bri := some 0, hue := some 0, sat := some 0, ct := some 0 }
  let d :=
    if entity.domain = "climate" then
      { d with bri := some (pyRound ((attributes.temperature.getD 0) * (HUE_API_STATE_BRI_MAX : ℚ) / 100)) }
    else if entity.domain = "humidifier" then
      { d with bri := some (pyRound ((attributes.humidity.getD 0) * (HUE_API_STATE_BRI_MAX : ℚ) / 100)) }
    else if entity.domain = "media_player" then
      let level := attributes.media_volume_level.getD (if is_on then 1 else 0)
      { d with bri := some (pyRound (min 1 level * (HUE_API_STATE_BRI_MAX : ℚ))) }
    else if entity.domain = "fan" then
      let percentage := attributes.percentage.getD 0
      { d with bri := some (pyRound (percentage * (HUE_API_STATE_BRI_MAX : ℚ) / 100)) }
    else if entity.domain = "cover" then
      let level := attributes.current_position.getD 0
      { d with bri := some (pyRound (level / 100 * (HUE_API_STATE_BRI_MAX : ℚ))) }
    else d
  _clamp_values d

/-- A Command-Echo Cache entry: the echoed state dict and either the
`time.time()` it was stored at or `None` (permanent, off-maps-to-on domains). -/
abbrev CacheEntry := StateDict × Option ℚ

/-- The shared `cached_states` dict, keyed by entity id. -/
abbrev CachedStates := List (String × CacheEntry)

/-- The in-place completion of a cached dict performed by
`_get_entity_state_dict` on a cache hit (lines 794-803): fill a missing
`bri` from on/off, zero missing or moot `hue`/`sat`, then clamp. -/
def _fill_cached_state (st : StateDict) : StateDict :=
  let d := if st.bri = none then
      { st with bri := some (if st.is_on then HUE_API_STATE_BRI_MAX else 0) }
    else st
  let d := if d.hue = none ∨ d.sat = none then { d with hue := some 0, sat := some 0 } else d
  let d := if d.bri = some 0 then { d with hue := some 0, sat := some 0 } else d
  _clamp_values d

/-- `hue_api.py` `_get_entity_state_dict` (lines 770-804): read the state
dict for an entity, respecting the short-lived cache.  `now` is the value
`time.time()` returns during the call.  A permanent entry (`entry_time is
None`) is served unconditionally; a timed entry is served while it is fresh
and its on/off agrees with the live entity state, and discarded otherwise.
The served dict is completed and clamped in place, which the aliasing
`cached_states[...] = [entry_state, ...]` makes visible in the cache. -/
def _get_entity_state_dict (now : ℚ) (entity : EntityState)
    (cached_states : CachedStates) : StateDict × CachedStates :=
  match List.lookup entity.entity_id cached_states with
  | none => (_build_entity_state_dict entity, cached_states)
  | some (entry_state, entry_time) =>
    let hit : Bool :=
      match entry_time with
      | none => true
      | some t => decide (now - t < CACHE_TIMEOUT) && (entry_state.is_on == _hass_to_hue_state entity)
    if hit then
      let d := _fill_cached_state entry_state
      (d, dictInsert entity.entity_id (d, entry_time) cached_states)
    else
      (_build_entity_state_dict entity, dictErase entity.entity_id cached_states)

/-! ## Hue device records (`hue_device.py`) -/

/-- `hue_device.py` `HueDevice`.  The timestamp strings are opaque ISO
strings produced by the collaborator `datetime.now().isoformat()`; every
operation that writes them receives the current string as an argument. -/
structure HueDevice where
  hue_id : Nat
  name : String
  entity_id : Option String := none
  device_type : String := "light"
  created_at : String := ""
  modified_at : String := ""
  last_accessed_at : Option String := none
  last_accessed_by : Option String := none
deriving Repr, DecidableEq

/-- `HueDevice.is_linked`: `entity_id is not None`. -/
def HueDevice.is_linked (d : HueDevice) : Bool := d.entity_id.isSome

/-- `HueDevice.record_access`: stamp the access time and client address. -/
def HueDevice.record_access (d : HueDevice) (nowIso client_ip : String) : HueDevice :=
  { d with last_accessed_at := some nowIso, last_accessed_by := some client_ip }

/-- `HueDevice.update_name`. -/
def HueDevice.update_name (d : HueDevice) (new_name nowIso : String) : HueDevice :=
  { d with name := new_name, modified_at := nowIso }

/-- `HueDevice.update_entity_link` (`None` unlinks). -/
def HueDevice.update_entity_link (d : HueDevice) (entity_id : Option String)
    (nowIso : String) : HueDevice :=
  { d with entity_id := entity_id, modified_at := nowIso }

/-! ## The device registry (`hue_device_manager.py`) -/

/-- The in-memory state of `HueDeviceManager`: the active-device dict (keyed
by id, insertion order), the retired-ID set (as a duplicate-free list) and
the ID counter. -/
structure HueDeviceManager where
  devices : List (Nat × HueDevice) := []
  retired_ids : List Nat := []
  next_id_counter : Nat := 1
deriving Repr, DecidableEq

/-- The fresh registry state (`__init__`). -/
def initManager : HueDeviceManager := {}

/-- The ids of the active devices (the dict's keys). -/
def activeIds (m : HueDeviceManager) : List Nat := m.devices.map (·.1)

/-- Every id the generator must avoid: active or retired. -/
def usedIds (m : HueDeviceManager) : List Nat := activeIds m ++ m.retired_ids

/-- The candidate scan of `_generate_hue_id`: try `c`, `c+1`, ... until a
candidate avoids `used`, giving up after `fuel` skips. -/
def genFrom (used : List Nat) : Nat → Nat → Nat
  | 0, c => c
  | fuel + 1, c => if c ∈ used then genFrom used fuel (c + 1) else c

/-- `hue_device_manager.py` `_generate_hue_id` (lines 103-111): starting from
`_next_id_counter`, return the first id neither active nor retired and leave
the counter one past it.  The source's `while True` loop always terminates
within `len(used) + 1` probes (among `len(used) + 1` consecutive candidates
at most `len(used)` can be used), so the fuelled scan equals it on every
state. -/
def _generate_hue_id (m : HueDeviceManager) : Nat × HueDeviceManager :=
  let used := usedIds m
  let new_id := genFrom used (used.length + 1) m.next_id_counter
  (new_id, { m with next_id_counter := new_id + 1 })

/-- `get_device_by_entity`: first device whose link equals the entity id
(`device.entity_id == entity_id`; a `None` link never matches a string). -/
def get_device_by_entity (m : HueDeviceManager) (entity_id : String) : Option HueDevice :=
  (m.devices.find? (fun p => p.2.entity_id == some entity_id)).map (·.2)

/-- `_is_entity_already_linked`. -/
def _is_entity_already_linked (m : HueDeviceManager) (entity_id : String) : Bool :=
  (get_device_by_entity m entity_id).isSome

/-- `_is_valid_entity`: the entity currently exists on the platform
(`hass.states.get(entity_id)` is not `None`, abstracted as the predicate
`states_exist`) and its domain is supported. -/
def _is_valid_entity (states_exist : String → Bool) (entity_id : String) : Bool :=
  states_exist entity_id && SUPPORTED_DOMAINS.contains (domainOf entity_id)

/-- `_get_device_type`: the entity's domain, `"light"` for a falsy id. -/
def _get_device_type (entity_id : String) : String :=
  if !truthyStr entity_id then "light" else domainOf entity_id

/-- The validation of `async_create_hue_device` (lines 121-126): a truthy
entity id must exist on the platform, be of a supported domain, and not be
linked to another device; the returned message is the `ValueError` text. -/
def create_validation_error (states_exist : String → Bool)
    (entity_id : Option String) (m1 : HueDeviceManager) : Option String :=
  if truthyOptStr entity_id then
    let e := entity_id.getD ""
    if !_is_valid_entity states_exist e then
      some ("Entity " ++ e ++ " is not valid or not supported")
    else if _is_entity_already_linked m1 e then
      some ("Entity " ++ e ++ " is already linked to another Hue device")
    else none
  else none

/-- `async_create_hue_device` (lines 113-139).  Note the order the source
fixes: the id is generated (and the counter advanced) *before* validation,
so a create that raises `ValueError` still leaves the counter advanced; the
error branches therefore return the post-generation registry. -/
def async_create_hue_device (states_exist : String → Bool) (nowIso : String)
    (name : String) (entity_id : Option String) (m : HueDeviceManager) :
    Except String HueDevice × HueDeviceManager :=
  let gen := _generate_hue_id m
  let hue_id := gen.1
  let m1 := gen.2
  match create_validation_error states_exist entity_id m1 with
  | some msg => (.error msg, m1)
  | none =>
    let device : HueDevice :=
      { hue_id := hue_id, name := name, entity_id := entity_id,
        device_type :=
          if truthyOptStr entity_id then _get_device_type (entity_id.getD "") else "light",
        created_at := nowIso, modified_at := nowIso }
    (.ok device, { m1 with devices := m1.devices ++ [(hue_id, device)] })

/-- `async_delete_hue_device` (lines 141-151): pop the device and retire its
id permanently; `False` when the id is unknown (including re-deletion). -/
def async_delete_hue_device (m : HueDeviceManager) (hue_id : Nat) :
    Bool × HueDeviceManager :=
  if (List.lookup hue_id m.devices).isSome then
    (true,
     { m with
       devices := dictErase hue_id m.devices,
       retired_ids :=
         if hue_id ∈ m.retired_ids then m.retired_ids else hue_id :: m.retired_ids })
  else (false, m)

/-- The `entity_id` argument of `async_update_hue_device`:
`str | None | _Sentinel.UNSET`. -/
inductive EntityArg
  | unset
  | set (entity_id : Option String)
deriving Repr, DecidableEq

/-- The validation of `async_update_hue_device` (lines 171-180): only for a
provided, non-`None` entity different from the device's current link. -/
def update_validation_error (states_exist : String → Bool)
    (m : HueDeviceManager) (device : HueDevice) (entity_arg : EntityArg) :
    Option String :=
  match entity_arg with
  | .set (some e) =>
    if some e ≠ device.entity_id then
      if !_is_valid_entity states_exist e then
        some ("Entity " ++ e ++ " is not valid or not supported")
      else if _is_entity_already_linked m e then
        some ("Entity " ++ e ++ " is already linked to another Hue device")
      else none
    else none
  | _ => none

/-- The field updates of `async_update_hue_device` (lines 182-186): `if
name:` renames on a truthy name; a provided entity argument (including
`None`) replaces the link. -/
def updated_device (device : HueDevice) (nowIso : String)
    (name : Option String) (entity_arg : EntityArg) : HueDevice :=
  let device1 :=
    match name with
    | some n => if truthyStr n then device.update_name n nowIso else device
    | none => device
  match entity_arg with
  | .set v => device1.update_entity_link v nowIso
  | .unset => device1

/-- `async_update_hue_device` (lines 153-191): `False` for an unknown id;
validation only for a provided, non-`None` entity different from the current
link; on success the device record is updated in place. -/
def async_update_hue_device (states_exist : String → Bool) (nowIso : String)
    (m : HueDeviceManager) (hue_id : Nat) (name : Option String)
    (entity_arg : EntityArg) : Except String Bool × HueDeviceManager :=
  match List.lookup hue_id m.devices with
  | none => (.ok false, m)
  | some device =>
    match update_validation_error states_exist m device entity_arg with
    | some msg => (.error msg, m)
    | none =>
      (.ok true,
       { m with devices :=
           dictInsert hue_id (updated_device device nowIso name entity_arg) m.devices })

/-- One registry mutation, carrying the platform-existence predicate and the
wall-clock string in effect at call time. -/
inductive RegOp
  | create (states_exist : String → Bool) (nowIso name : String) (entity_id : Option String)
  | delete (hue_id : Nat)
  | update (states_exist : String → Bool) (nowIso : String) (hue_id : Nat)
      (name : Option String) (entity_arg : EntityArg)

/-- Apply one registry mutation (keeping the post-call state whether or not
the call raised or returned `False`). -/
def applyOp (m : HueDeviceManager) : RegOp → HueDeviceManager
  | .create se ni nm e => (async_create_hue_device se ni nm e m).2
  | .delete i => (async_delete_hue_device m i).2
  | .update se ni i nm ea => (async_update_hue_device se ni m i nm ea).2

/-- The registry state after a sequence of mutations from the fresh state. -/
def applyOps (ops : List RegOp) : HueDeviceManager := ops.foldl applyOp initManager

/-- Apply one mutation but fail the whole history when a create raises
`ValueError` (deletes and updates may fail/raise freely). -/
def applyOpChecked (m : HueDeviceManager) : RegOp → Option HueDeviceManager
  | .create se ni nm e =>
    match async_create_hue_device se ni nm e m with
    | (.ok _, m') => some m'
    | (.error _, _) => none
  | .delete i => some (applyOp m (.delete i))
  | .update se ni i nm ea => some (applyOp m (.update se ni i nm ea))

/-- The registry state after a history in which every create succeeded. -/
def applyOpsChecked (ops : List RegOp) : Option HueDeviceManager :=
  ops.foldlM applyOpChecked initManager

/-! ## The bridge world shared by the HTTP views -/

/-- Everything the views read or write: the device manager, the shared
`cached_states` dict, the platform state store (`hass.states`), the current
wall clock (`time.time()` as `now`, `datetime.now().isoformat()` as
`nowIso`) and the advertised address. -/
structure World where
  manager : HueDeviceManager := {}
  cached_states : CachedStates := []
  states : List (String × EntityState) := []
  now : ℚ := 0
  nowIso : String := ""
  advertise_ip : String := ""
  advertise_port : Nat := 0
deriving Repr, DecidableEq

/-- `hass.states.get`. -/
def statesGet (w : World) (entity_id : String) : Option EntityState :=
  List.lookup entity_id w.states

/-! ## Hue JSON response shapes -/

/-- One `{"error": {...}}` element of a Hue error array. -/
structure HueError where
  err_type : Nat
  address : String
  description : String
deriving Repr, DecidableEq

/-- `hue_api.py` `UNAUTHORIZED_USER`. -/
def UNAUTHORIZED_USER : List HueError := [⟨1, "/", "unauthorized user"⟩]

/-- `hue_api.py` `_hue_api_error`: a one-element Hue error array. -/
def _hue_api_error (error_type : Nat) (address description : String) : List HueError :=
  [⟨error_type, address, description⟩]

/-- A JSON value appearing in a success confirmation entry. -/
inductive HueVal
  | b (v : Bool)
  | i (v : Int)
  | xy (v : ℚ × ℚ)
deriving Repr, DecidableEq

/-- One `{"success": {key: value}}` element of the light-change response. -/
structure SuccessEntry where
  key : String
  value : HueVal
deriving Repr, DecidableEq

/-- The `state` object of an emitted Hue light resource; a `none` field is
absent from the JSON.  (`is_on` models the JSON key `"on"`.) -/
structure LightState where
  is_on : Bool
  reachable : Bool
  mode : String
  bri : Option Int := none
  hue : Option Int := none
  sat : Option Int := none
  ct : Option Int := none
  effect : Option String := none
  colormode : Option String := none
deriving Repr, DecidableEq

/-- An emitted Hue light resource (`device_to_json` result). -/
structure LightResource where
  state : LightState
  name : String
  uniqueid : String
  manufacturername : String
  swversion : String
  light_type : String
  modelid : String
  productname : Option String := none
deriving Repr, DecidableEq

/-- The bridge config object (`_create_config_model`). -/
structure ConfigModel where
  name : String
  mac : String
  swversion : String
  apiversion : String
  whitelist_user : String
  ipaddress : String
  linkbutton : Bool
deriving Repr, DecidableEq

/-- The JSON body of an HTTP response from the bridge. -/
inductive RespBody
  | message (msg : String)
  | errorList (errs : List HueError)
  | usernameSuccess (username : String)
  | successList (entries : List SuccessEntry)
  | lightsMap (lights : List (Nat × LightResource))
  | light (resource : LightResource)
  | config (c : ConfigModel)
  | fullState (lights : List (Nat × LightResource)) (c : ConfigModel)
  | emptyObj
deriving Repr, DecidableEq

/-- An HTTP response: status code and JSON body. -/
structure Response where
  status : Nat
  body : RespBody
deriving Repr, DecidableEq

/-- `HomeAssistantView.json_message`. -/
def json_message (msg : String) (status : Nat) : Response := ⟨status, .message msg⟩

/-- The `self.json_message("Only local IPs allowed", HTTPStatus.UNAUTHORIZED)`
response every guarded view returns to a non-local source. -/
def unauthorizedLocal : Response := json_message "Only local IPs allowed" 401

/-- The 404 Hue error array for `/lights/{n}` resources. -/
def not_available_error (entity_number : Nat) : Response :=
  ⟨404, .errorList (_hue_api_error 3 ("/lights/" ++ toString entity_number)
      ("resource, /lights/" ++ toString entity_number ++ ", not available"))⟩

/-! ## State translation to Hue light resources (`device_to_json`) -/

/-- `hue_api.py` `_entity_unique_id`: an MD5-based MAC-like string formatted
from the device id (collaborator `hashlib`).  No claim depends on its value;
it is modelled as an injective tagging of the id. -/
def _entity_unique_id (hue_id : Nat) : String := "00:id:" ++ toString hue_id

/-- The fixed "off / unreachable Dimmable light" resource `device_to_json`
returns for an unlinked device or a missing platform entity. -/
def unreachableResource (device : HueDevice) : LightResource :=
  { state := { is_on := false, reachable := false, mode := "homeautomation", bri := some 0 },
    name := device.name, uniqueid := _entity_unique_id device.hue_id,
    manufacturername := "Home Assistant", swversion := "123",
    light_type := "Dimmable light", modelid := "HASS123" }

/-- `hue_api.py` `DIMMABLE_SUPPORTED_FEATURES_BY_DOMAIN`. -/
def DIMMABLE_SUPPORTED_FEATURES_BY_DOMAIN (domain : String) : Option Nat :=
  if domain = "cover" then some COVER_SET_POSITION
  else if domain = "fan" then some FAN_SET_SPEED
  else if domain = "media_player" then some MEDIA_VOLUME_SET
  else if domain = "climate" then some CLIMATE_TARGET_TEMPERATURE
  else none

/-- `hue_api.py` `_state_supports_hue_brightness` (lines 876-888). -/
def _state_supports_hue_brightness (state : EntityState)
    (color_modes : List ColorMode) : Bool :=
  if state.domain = "light" then brightness_supported color_modes
  else
    match DIMMABLE_SUPPORTED_FEATURES_BY_DOMAIN state.domain with
    | none => false
    | some required => containsFeature state.attributes.supported_features required

/-- `hue_api.py` `device_to_json` (lines 647-762): convert a `HueDevice` to
its full Hue bridge JSON representation, threading the cache through
`_get_entity_state_dict`.  On the branches that read `state_dict` hue/sat
for the colormode rule the values are always present (both producer paths
set them); `getD 0` stands for the direct dict access. -/
def device_to_json (now : ℚ) (states : List (String × EntityState))
    (device : HueDevice) (cached_states : CachedStates) :
    LightResource × CachedStates :=
  if !truthyOptStr device.entity_id then (unreachableResource device, cached_states)
  else
    let eid := device.entity_id.getD ""
    match List.lookup eid states with
    | none => (unreachableResource device, cached_states)
    | some state =>
      let color_modes := state.attributes.supported_color_modes
      let sd_cache := _get_entity_state_dict now state cached_states
      let state_dict := sd_cache.1
      let cache' := sd_cache.2
      let base : LightState :=
        { is_on := state_dict.is_on,
          reachable := state.state != "unavailable",
          mode := "homeautomation" }
      let is_light_domain := state.domain = "light"
      let cs := is_light_domain && color_supported color_modes
      let cts := is_light_domain && color_temp_supported color_modes
      let r : LightResource :=
        if cs && cts then
          { state :=
              { base with
                bri := state_dict.bri, hue := state_dict.hue, sat := state_dict.sat,
                ct := state_dict.ct, effect := some "none",
                colormode := some
                  (if state_dict.hue.getD 0 > 0 || state_dict.sat.getD 0 > 0
                   then "hs" else "ct") },
            name := device.name, uniqueid := _entity_unique_id device.hue_id,
            manufacturername := "Home Assistant", swversion := "123",
            light_type := "Extended color light", modelid := "HASS231" }
        else if cs then
          { state :=
              { base with
                bri := state_dict.bri, colormode := some "hs",
                hue := state_dict.hue, sat := state_dict.sat, effect := some "none" },
            name := device.name, uniqueid := _entity_unique_id device.hue_id,
            manufacturername := "Home Assistant", swversion := "123",
            light_type := "Color light", modelid := "HASS213" }
        else if cts then
          { state :=
              { base with
                colormode := some "ct", ct := state_dict.ct, bri := state_dict.bri },
            name := device.name, uniqueid := _entity_unique_id device.hue_id,
            manufacturername := "Home Assistant", swversion := "123",
            light_type := "Color temperature light", modelid := "HASS312" }
        else if _state_supports_hue_brightness state color_modes then
          { state := { base with bri := state_dict.bri },
            name := device.name, uniqueid := _entity_unique_id device.hue_id,
            manufacturername := "Home Assistant", swversion := "123",
            light_type := "Dimmable light", modelid := "HASS123" }
        else
          { state := base,
            name := device.name, uniqueid := _entity_unique_id device.hue_id,
            manufacturername := "Home Assistant", swversion := "123",
            light_type := "On/Off light", modelid := "HASS321",
            productname := some "On/Off light" }
      (r, cache')

/-- `hue_api.py` `_create_config_model`. -/
def _create_config_model (w : World) : ConfigModel :=
  { name := "HASS BRIDGE", mac := "00:00:00:00:00:00", swversion := "01003542",
    apiversion := "1.17.0", whitelist_user := HUE_API_USERNAME,
    ipaddress := w.advertise_ip ++ ":" ++ toString w.advertise_port,
    linkbutton := true }

/-- The fold inside `_create_list_of_entities`: every linked device, in dict
order, rendered by `device_to_json` with the cache threaded through. -/
def listEntitiesFrom (now : ℚ) (states : List (String × EntityState)) :
    List (Nat × HueDevice) → CachedStates →
    List (Nat × LightResource) × CachedStates
  | [], cache => ([], cache)
  | (_, d) :: t, cache =>
    if d.is_linked then
      let rc := device_to_json now states d cache
      let rest := listEntitiesFrom now states t rc.2
      ((d.hue_id, rc.1) :: rest.1, rest.2)
    else listEntitiesFrom now states t cache

/-- `hue_api.py` `_create_list_of_entities`. -/
def _create_list_of_entities (w : World) :
    List (Nat × LightResource) × CachedStates :=
  listEntitiesFrom w.now w.states w.manager.devices w.cached_states

/-! ## The light-change pipeline (`HueOneLightChangeView.put`) -/

/-- The JSON body of a `PUT lights/{n}/state` request after `request.json()`,
field by field: an outer `none` is an absent key; `some none` is a present
key whose value fails the source's type conversion (`isinstance(..., bool)`
for `on`, `int(...)`/`float(...)` raising `ValueError` otherwise);
`some (some v)` is a present key converting to `v`. -/
structure PutBody where
  is_on : Option (Option Bool) := none
  bri : Option (Option Int) := none
  hue : Option (Option Int) := none
  sat : Option (Option Int) := none
  ct : Option (Option Int) := none
  xy : Option (Option (ℚ × ℚ)) := none
  transitiontime : Option (Option Int) := none
deriving Repr, DecidableEq

/-- One step of the parse loop: an absent key leaves the parsed slot `None`,
a present unparsable value aborts with HTTP 400, a parsable one is stored. -/
def parseField (f : Option (Option α)) : Option (Option α) :=
  match f with
  | none => some none
  | some none => none
  | some (some v) => some (some v)

/-- `HueOneLightChangeView.put`, parsing phase (lines 415-456): build the
`parsed` dict (`on` defaults to the live on/off state when absent), or fail
(`none`) with HTTP 400 on any wrongly-typed field. -/
def _parse_hue_request (entity : EntityState) (body : PutBody) : Option StateDict := do
  let is_on ←
    match body.is_on with
    | none => some (_hass_to_hue_state entity)
    | some none => none
    | some (some b) => some b
  let bri ← parseField body.bri
  let hue ← parseField body.hue
  let sat ← parseField body.sat
  let ct ← parseField body.ct
  let transitiontime ← parseField body.transitiontime
  let xy ← parseField body.xy
  some { is_on := is_on, bri := bri, hue := hue, sat := sat, ct := ct,
         xy := xy, transitiontime := transitiontime }

/-- `HueOneLightChangeView.put`, domain-specific brightness interpretation
(lines 458-481), applied only when the request supplied `bri`: lights gate
on/off at `bri > 0` (or drop `bri` without brightness support); scenes drop
`bri` and force on; the level domains rescale 0-254 to 0-100
(`round((bri / 254) * 100)`) and force on. -/
def _interpret_brightness (entity : EntityState) (bri_present : Bool)
    (parsed : StateDict) : StateDict :=
  if !bri_present then parsed
  else if entity.domain = "light" then
    if brightness_supported entity.attributes.supported_color_modes then
      { parsed with is_on := parsed.bri.getD 0 > 0 }
    else { parsed with bri := none }
  else if entity.domain = "scene" then
    { parsed with bri := none, is_on := true }
  else if ["script", "media_player", "fan", "cover", "climate", "humidifier"].contains
      entity.domain then
    { parsed with
      bri := some (roundHalfEvenInt (parsed.bri.getD 0 * 100) HUE_API_STATE_BRI_MAX),
      is_on := true }
  else parsed

/-- The payload dict of a platform service call; a `none` field is absent. -/
structure ServiceData where
  entity_id : String
  brightness : Option Int := none
  hs_color : Option (Int × Int) := none
  xy_color : Option (ℚ × ℚ) := none
  color_temp_kelvin : Option Int := none
  transition : Option ℚ := none
  variables_requested_state : Option String := none
  variables_requested_level : Option Int := none
  temperature : Option Int := none
  humidity : Option Int := none
  volume_level : Option ℚ := none
  position : Option Int := none
  percentage : Option Int := none
deriving Repr, DecidableEq

/-- One `hass.services.async_call(domain, service, data)` issued to the
platform collaborator (fire-and-forget). -/
structure ServiceCall where
  domain : String
  service : String
  data : ServiceData
deriving Repr, DecidableEq

/-- The command `HueOneLightChangeView.put` decides on: target domain,
service (possibly none, the climate no-op case), payload, and whether a
separate `homeassistant.turn_on` precedes it. -/
structure CommandPlan where
  domain : String
  service : Option String
  data : ServiceData
  turn_on_needed : Bool
deriving Repr, DecidableEq

/-- `HueOneLightChangeView.put`, command mapping (lines 483-593): choose the
HA domain, service and payload from the parsed request and the entity's
declared capabilities, ending with the off-maps-to-on override for the
stateless domains. -/
def _choose_command (entity : EntityState) (parsed : StateDict) : CommandPlan :=
  let entity_features := entity.attributes.supported_features
  let color_modes := entity.attributes.supported_color_modes
  let domain0 := "homeassistant"
  let service0 : Option String := some (if parsed.is_on then "turn_on" else "turn_off")
  let data0 : ServiceData := { entity_id := entity.entity_id }
  let plan : CommandPlan :=
    if entity.domain = "light" then
      if parsed.is_on then
        let data1 :=
          if brightness_supported color_modes && parsed.bri.isSome then
            { data0 with brightness := some (hue_brightness_to_hass (parsed.bri.getD 0)) }
          else data0
        let data2 :=
          if color_supported color_modes then
            let da :=
              if truthyOptInt parsed.hue || truthyOptInt parsed.sat then
                let hue := parsed.hue.getD 0
                let sat := parsed.sat.getD 0
                { data1 with
                  hs_color := some
                    (truncDivInt (hue * 360) HUE_API_STATE_HUE_MAX,
                     truncDivInt (sat * 100) HUE_API_STATE_SAT_MAX) }
              else data1
            if parsed.xy.isSome then { da with xy_color := parsed.xy } else da
          else data1
        let data3 :=
          if color_temp_supported color_modes && parsed.ct.isSome then
            { data2 with
              color_temp_kelvin :=
                some (color_temperature_mired_to_kelvin ((parsed.ct.getD 0 : Int) : ℚ)) }
          else data2
        let data4 :=
          if testFeature entity_features LIGHT_TRANSITION && parsed.transitiontime.isSome then
            { data3 with transition := some (((parsed.transitiontime.getD 0 : Int) : ℚ) / 10) }
          else data3
        { domain := domain0, service := service0, data := data4, turn_on_needed := false }
      else { domain := domain0, service := service0, data := data0, turn_on_needed := false }
    else if entity.domain = "script" then
      let da := { data0 with
        variables_requested_state := some (if parsed.is_on then "on" else "off") }
      let da := if parsed.bri.isSome then { da with variables_requested_level := parsed.bri } else da
      { domain := domain0, service := service0, data := da, turn_on_needed := false }
    else if entity.domain = "climate" then
      if testFeature entity_features CLIMATE_TARGET_TEMPERATURE && parsed.bri.isSome then
        { domain := "climate", service := some "set_temperature",
          data := { data0 with temperature := parsed.bri }, turn_on_needed := false }
      else { domain := domain0, service := none, data := data0, turn_on_needed := false }
    else if entity.domain = "humidifier" then
      if parsed.bri.isSome then
        { domain := "humidifier", service := some "set_humidity",
          data := { data0 with humidity := parsed.bri }, turn_on_needed := true }
      else { domain := domain0, service := service0, data := data0, turn_on_needed := false }
    else if entity.domain = "media_player" then
      if testFeature entity_features MEDIA_VOLUME_SET && parsed.bri.isSome then
        { domain := "media_player", service := some "volume_set",
          data := { data0 with volume_level := some (((parsed.bri.getD 0 : Int) : ℚ) / 100) },
          turn_on_needed := true }
      else { domain := domain0, service := service0, data := data0, turn_on_needed := false }
    else if entity.domain = "cover" then
      if testFeature entity_features COVER_SET_POSITION && parsed.bri.isSome then
        { domain := "cover", service := some "set_cover_position",
          data := { data0 with position := parsed.bri }, turn_on_needed := false }
      else
        { domain := "cover",
          service := some (if service0 == some "turn_on" then "open_cover" else "close_cover"),
          data := data0, turn_on_needed := false }
    else if entity.domain = "fan" && testFeature entity_features FAN_SET_SPEED
        && parsed.bri.isSome then
      { domain := "fan", service := service0,
        data := { data0 with percentage := parsed.bri }, turn_on_needed := false }
    else { domain := domain0, service := service0, data := data0, turn_on_needed := false }
  if OFF_MAPS_TO_ON_DOMAINS.contains entity.domain then
    { plan with service := some "turn_on" }
  else plan

/-- `hue_api.py` `_create_hue_success_response`. -/
def _create_hue_success_response (entity_number : Nat) (attr : String)
    (value : HueVal) : SuccessEntry :=
  { key := "/lights/" ++ toString entity_number ++ "/state/" ++ attr, value := value }

/-- `HueOneLightChangeView.put`, response building (lines 614-631): one
success entry for `on`, then one per supplied field in the fixed order
bri, hue, sat, ct, xy, transitiontime. -/
def _build_success_list (entity_number : Nat) (parsed : StateDict) :
    List SuccessEntry :=
  [_create_hue_success_response entity_number "on" (.b parsed.is_on)]
  ++ (match parsed.bri with
      | some v => [_create_hue_success_response entity_number "bri" (.i v)]
      | none => [])
  ++ (match parsed.hue with
      | some v => [_create_hue_success_response entity_number "hue" (.i v)]
      | none => [])
  ++ (match parsed.sat with
      | some v => [_create_hue_success_response entity_number "sat" (.i v)]
      | none => [])
  ++ (match parsed.ct with
      | some v => [_create_hue_success_response entity_number "ct" (.i v)]
      | none => [])
  ++ (match parsed.xy with
      | some v => [_create_hue_success_response entity_number "xy" (.xy v)]
      | none => [])
  ++ (match parsed.transitiontime with
      | some v => [_create_hue_success_response entity_number "transitiontime" (.i v)]
      | none => [])

/-- `hue_api.py` `_wait_for_state_change_or_timeout` (lines 955-973): the
function ignores its `timeout` argument and bounds the wait with
`asyncio.timeout(STATE_CHANGE_TIMEOUT)`; a `TimeoutError` is swallowed and
nothing is returned either way.  Its only claim-relevant observable is the
bound it applies, which this model returns. -/
def _wait_for_state_change_or_timeout (timeout : ℚ) : ℚ := STATE_CHANGE_TIMEOUT

/-- The observable outcome of one `PUT lights/{n}/state` request: the HTTP
response, the post-request world, the platform service calls issued, and the
bound of the confirmation wait when one was entered (`none` otherwise). -/
structure PutOutcome where
  response : Response
  world : World
  calls : List ServiceCall
  wait_bound : Option ℚ

/-- `hue_api.py` `HueOneLightChangeView.put` (lines 352-639).  `remote` is
`request.remote`; `is_local` is `_remote_is_allowed(request.remote)`; a `none`
`body` is a request whose JSON fails to parse; `timed_out` is whether the
confirmation wait (when entered) ended by timeout rather than by a state
change — the source discards that outcome, so it influences nothing. -/
def putOneLightChange (w : World) (remote : String) (is_local : Bool)
    (username : String) (entity_number : Nat) (body : Option PutBody)
    (timed_out : Bool) : PutOutcome :=
  if !is_local then
    { response := unauthorizedLocal, world := w, calls := [], wait_bound := none }
  else
    match List.lookup entity_number w.manager.devices with
    | none =>
      { response := not_available_error entity_number, world := w,
        calls := [], wait_bound := none }
    | some device0 =>
      let device := device0.record_access w.nowIso remote
      let w1 := { w with manager :=
        { w.manager with devices := dictInsert entity_number device w.manager.devices } }
      if !truthyOptStr device.entity_id then
        { response := not_available_error entity_number, world := w1,
          calls := [], wait_bound := none }
      else
        let entity_id := device.entity_id.getD ""
        match List.lookup entity_id w1.states with
        | none =>
          { response := not_available_error entity_number, world := w1,
            calls := [], wait_bound := none }
        | some entity =>
          match body with
          | none =>
            { response := json_message "Invalid JSON" 400, world := w1,
              calls := [], wait_bound := none }
          | some body =>
            match _parse_hue_request entity body with
            | none =>
              { response := json_message "Bad request" 400, world := w1,
                calls := [], wait_bound := none }
            | some parsed0 =>
              let parsed := _interpret_brightness entity body.bri.isSome parsed0
              let plan := _choose_command entity parsed
              let pre_calls : List ServiceCall :=
                if plan.turn_on_needed then
                  [{ domain := "homeassistant", service := "turn_on",
                     data := { entity_id := entity_id } }]
                else []
              let dispatched : List ServiceCall × Option ℚ :=
                match plan.service with
                | none => ([], none)
                | some svc =>
                  let state_will_change := parsed.is_on != _hass_to_hue_state entity
                  ([{ domain := plan.domain, service := svc, data := plan.data }],
                   if state_will_change
                   then some (_wait_for_state_change_or_timeout CACHE_TIMEOUT)
                   else none)
              let json_response := _build_success_list entity_number parsed
              let entry_time : Option ℚ :=
                if OFF_MAPS_TO_ON_DOMAINS.contains entity.domain then none else some w1.now
              let w2 := { w1 with
                cached_states := dictInsert entity_id (parsed, entry_time) w1.cached_states }
              { response := ⟨200, .successList json_response⟩, world := w2,
                calls := pre_calls ++ dispatched.1, wait_bound := dispatched.2 }

/-! ## The remaining views and the request dispatcher -/

/-- The body of `POST /api` after `request.json()`: unparsable, or a JSON
object that does or does not carry a `devicetype` key. -/
inductive PostBody
  | invalidJson
  | json (has_devicetype : Bool)
deriving Repr, DecidableEq

/-- One inbound HTTP request to the exposed surface, one constructor per
registered view/method. -/
inductive ApiRequest
  | postApi (body : PostBody)
  | getApi
  | getConfig (username : String)
  | getFullState (username : String)
  | getAllLights (username : String)
  | getOneLight (username : String) (entity_id : Nat)
  | getAllGroups (username : String)
  | putGroupAction (username : String)
  | putLight (username : String) (entity_number : Nat) (body : Option PutBody)

/-- The exposed HTTP surface (`hue_api.py` view classes): dispatch one
request.  `remote` is `request.remote`, `is_local` the value of
`_remote_is_allowed(request.remote)`, and `timed_out` the outcome of the
confirmation wait should the light-change pipeline enter one. -/
def handleRequest (w : World) (remote : String) (is_local : Bool)
    (timed_out : Bool) : ApiRequest → Response × World
  | .postApi body =>
    if !is_local then (unauthorizedLocal, w)
    else
      match body with
      | .invalidJson => (json_message "Invalid JSON" 400, w)
      | .json has_devicetype =>
        if !has_devicetype then (json_message "devicetype not specified" 400, w)
        else (⟨200, .usernameSuccess HUE_API_USERNAME⟩, w)
  | .getApi => (⟨200, .errorList UNAUTHORIZED_USER⟩, w)
  | .getConfig _ =>
    if !is_local then (unauthorizedLocal, w)
    else (⟨200, .config (_create_config_model w)⟩, w)
  | .getFullState username =>
    if !is_local then (unauthorizedLocal, w)
    else if username ≠ HUE_API_USERNAME then (⟨200, .errorList UNAUTHORIZED_USER⟩, w)
    else
      let lights := _create_list_of_entities w
      (⟨200, .fullState lights.1 (_create_config_model w)⟩,
       { w with cached_states := lights.2 })
  | .getAllLights _ =>
    if !is_local then (unauthorizedLocal, w)
    else
      let lights := _create_list_of_entities w
      (⟨200, .lightsMap lights.1⟩, { w with cached_states := lights.2 })
  | .getOneLight _ entity_id =>
    if !is_local then (unauthorizedLocal, w)
    else
      match List.lookup entity_id w.manager.devices with
      | none => (not_available_error entity_id, w)
      | some device0 =>
        let device := device0.record_access w.nowIso remote
        let w1 := { w with manager :=
          { w.manager with devices := dictInsert entity_id device w.manager.devices } }
        let rc := device_to_json w1.now w1.states device w1.cached_states
        (⟨200, .light rc.1⟩, { w1 with cached_states := rc.2 })
  | .getAllGroups _ =>
    if !is_local then (unauthorizedLocal, w)
    else (⟨200, .emptyObj⟩, w)
  | .putGroupAction _ =>
    if !is_local then (unauthorizedLocal, w)
    else
      (⟨200, .errorList
        [⟨7, "/groups/0/action/scene", "invalid value, dummy for parameter, scene"⟩]⟩, w)
  | .putLight username entity_number body =>
    let o := putOneLightChange w remote is_local username entity_number body timed_out
    (o.response, o.world)

/-! ## Concrete example inputs used by the claim theorems -/

/-- A platform on which exactly `light.a` and `light.b` exist. -/
def exStates : String → Bool := fun s => s == "light.a" || s == "light.b"

/-- Create two devices, delete the first: leaves device 2 active, id 1 retired. -/
def c1ops : List RegOp :=
  [.create (fun _ => true) "t" "A" none, .create (fun _ => true) "t" "B" none, .delete 1]

/-- A single create that fails validation (the entity does not exist),
burning id 1. -/
def c5failops : List RegOp := [.create (fun _ => false) "t" "A" (some "light.x")]

/-- A successful create followed by its delete: id 1 retired, no device. -/
def c5okops : List RegOp := [.create (fun _ => true) "t" "A" none, .delete 1]

/-- Device 1 linked to `light.a`, device 2 unlinked. -/
def c6ops2 : List RegOp :=
  [.create exStates "t" "A" (some "light.a"), .create exStates "t" "B" none]

/-- The same followed by unlinking device 1 from `light.a`. -/
def c6ops3 : List RegOp := c6ops2 ++ [.update exStates "t" 1 none (.set none)]

/-- Two creates both passing the empty string as the entity id. -/
def c6emptyops : List RegOp :=
  [.create (fun _ => false) "t" "A" (some ""), .create (fun _ => false) "t" "B" (some "")]

/-- A script entity currently running (platform reports on). -/
def scriptEntity : EntityState := { entity_id := "script.s", state := "on" }

/-- A permanent echo entry whose echoed on/off is `false`. -/
def echoSt : StateDict :=
  { is_on := false, bri := some 10, hue := some 0, sat := some 0, ct := some 0 }

/-- A cache holding only the permanent entry for `script.s`. -/
def echoCache : CachedStates := [("script.s", (echoSt, none))]

/-- A color-capable (hs), non-color-temperature light that is on and reports
no `hs_color` attribute. -/
def colorEntity : EntityState :=
  { entity_id := "light.c", state := "on",
    attributes := { supported_color_modes := [.hs] } }

/-- A device linked to `colorEntity`. -/
def colorDevice : HueDevice := { hue_id := 1, name := "C", entity_id := some "light.c" }

/-- The platform state store containing only `colorEntity`. -/
def colorStates : List (String × EntityState) := [("light.c", colorEntity)]

/-- A feature-less light entity that is currently off. -/
def plainEntity : EntityState := { entity_id := "light.l1", state := "off" }

/-- A device linked to `plainEntity`. -/
def plainDevice : HueDevice := { hue_id := 1, name := "L", entity_id := some "light.l1" }

/-- A world with that one linked device and entity. -/
def exWorld : World :=
  { manager := { devices := [(1, plainDevice)], retired_ids := [], next_id_counter := 2 },
    states := [("light.l1", plainEntity)] }

/-- The request body `{"on": true}`. -/
def onBody : PutBody := { is_on := some (some true) }

deriving instance DecidableEq for Except

/-! ## Invariants and bounds stated over the model -/

/-- Every active or retired id is below the counter. -/
def InvCounter (m : HueDeviceManager) : Prop :=
  (∀ p ∈ m.devices, p.1 < m.next_id_counter) ∧
  (∀ j ∈ m.retired_ids, j < m.next_id_counter)

/-- In a state reached by a history whose creates all succeeded, the active
and retired ids are exactly the interval `[1, next_id_counter)`. -/
def InvExact (m : HueDeviceManager) : Prop :=
  1 ≤ m.next_id_counter ∧
  ∀ j : Nat, ((∃ x, (j, x) ∈ m.devices) ∨ j ∈ m.retired_ids) ↔
    (1 ≤ j ∧ j < m.next_id_counter)

/-- A clamped state dict with a present `bri`: the bounds every emitted
numeric Hue state field satisfies. -/
def DictInBounds (d : StateDict) : Prop :=
  d.bri.isSome = true ∧
  (∀ v, d.bri = some v → 1 ≤ v ∧ v ≤ 254) ∧
  (∀ v, d.hue = some v → 0 ≤ v ∧ v ≤ 65535) ∧
  (∀ v, d.sat = some v → 0 ≤ v ∧ v ≤ 254) ∧
  (∀ v, d.ct = some v → 153 ≤ v ∧ v ≤ 500)

/-! # Theorems -/

set_option maxRecDepth 8000
set_option maxHeartbeats 1000000

/-! ## C7 and C8: the brightness converters -/

/-- Claim C7, counterexample: converting platform brightness 0 to the Hue
scale does NOT yield Hue brightness 0 — `hass_to_hue_brightness(0) = 1`
(the `max(1, ...)` floor), and the reporting path agrees: an off light's
built state dict carries `bri = 1` after `_clamp_values`, never 0. -/
theorem c7_counterexample :
    hass_to_hue_brightness 0 = 1 ∧
    (_build_entity_state_dict plainEntity).bri = some 1 := by decide

/-- Claim C7 (corrected): converting platform brightness 0 to the Hue scale
yields Hue brightness 1 (the clamp floor; the reporting path never emits 0
for a linked entity), and converting any in-range Hue brightness (1 to 254)
back to the platform scale yields a value greater than or equal to 1, so
that on-with-minimum is never coerced to off. -/
theorem c7_brightness_laws_amended :
    hass_to_hue_brightness 0 = 1 ∧
    ∀ v : Int, 1 ≤ v → v ≤ 254 → 1 ≤ hue_brightness_to_hass v := by
  refine ⟨by decide, ?_⟩
  intro v h1 h2
  have key : ∀ k : Nat, k < 254 → 1 ≤ hue_brightness_to_hass ((k : Int) + 1) := by decide
  have hv : v = (((v - 1).toNat : Int)) + 1 := by omega
  rw [hv]
  exact key (v - 1).toNat (by omega)

/-- Witness for C7 at Hue brightness 7. -/
theorem c7_witness : (1 ≤ (7 : Int) ∧ (7 : Int) ≤ 254) ∧ 1 ≤ hue_brightness_to_hass 7 :=
  ⟨by decide, c7_brightness_laws_amended.2 7 (by decide) (by decide)⟩

/-- Claim C8 (confirmed): for every platform brightness b in [0, 255], one
round trip stabilizes the conversion —
`hass_to_hue_brightness (hue_brightness_to_hass (hass_to_hue_brightness b))`
equals `hass_to_hue_brightness b`. -/
theorem c8_round_trip_stable :
    ∀ b : Int, 0 ≤ b → b ≤ 255 →
      hass_to_hue_brightness (hue_brightness_to_hass (hass_to_hue_brightness b)) =
        hass_to_hue_brightness b := by
  intro b h0 h1
  have key : ∀ k : Nat, k < 256 →
      hass_to_hue_brightness (hue_brightness_to_hass (hass_to_hue_brightness (k : Int))) =
        hass_to_hue_brightness (k : Int) := by decide
  have hb : b = ((b.toNat : Int)) := by omega
  rw [hb]
  exact key b.toNat (by omega)

/-- Witness for C8 at platform brightness 128. -/
theorem c8_witness :
    ((0 : Int) ≤ 128 ∧ (128 : Int) ≤ 255) ∧
    hass_to_hue_brightness (hue_brightness_to_hass (hass_to_hue_brightness 128)) =
      hass_to_hue_brightness 128 :=
  ⟨by decide, c8_round_trip_stable 128 (by decide) (by decide)⟩

/-! ## C2: non-local requests -/

/-- Claim C2, counterexample: `GET /api` (`HueUnauthorizedUser.get`) performs
no local-network check — a request from a non-local source is answered with
HTTP 200 and the Hue unauthorized-user error array, not HTTP 401. -/
theorem c2_nonlocal_counterexample :
    (handleRequest {} "203.0.113.7" false false .getApi).1.status = 200 ∧
    (handleRequest {} "203.0.113.7" false false .getApi).1 ≠ unauthorizedLocal ∧
    (handleRequest {} "203.0.113.7" false false .getApi).1.body =
      .errorList UNAUTHORIZED_USER := by decide

/-- Claim C2 (corrected): for every endpoint except `GET /api`, a request
whose source address is not on the local network is answered with HTTP 401
(`"Only local IPs allowed"`) before any other processing and the world is
unchanged; `GET /api` instead answers every source, local or not, with the
Hue unauthorized-user error array under HTTP 200, also without mutating
anything. -/
theorem c2_nonlocal_rejected_amended (w : World) (remote : String)
    (timed_out : Bool) (req : ApiRequest) :
    (req ≠ .getApi → handleRequest w remote false timed_out req = (unauthorizedLocal, w)) ∧
    handleRequest w remote false timed_out .getApi =
      (⟨200, .errorList UNAUTHORIZED_USER⟩, w) := by
  constructor
  · intro hne
    cases req with
    | postApi body => rfl
    | getApi => exact absurd rfl hne
    | getConfig u => rfl
    | getFullState u => rfl
    | getAllLights u => rfl
    | getOneLight u i => rfl
    | getAllGroups u => rfl
    | putGroupAction u => rfl
    | putLight u n body => rfl
  · rfl

/-- Witness for C2: a non-local `PUT lights/1/state` against the example
world is rejected with 401 and no mutation. -/
theorem c2_witness :
    handleRequest exWorld "203.0.113.7" false false (.putLight "nouser" 1 (some onBody)) =
      (unauthorizedLocal, exWorld) :=
  (c2_nonlocal_rejected_amended exWorld "203.0.113.7" false
      (.putLight "nouser" 1 (some onBody))).1 (by intro h; cases h)

/-! ## C3: the Command-Echo Cache read -/

/-- Claim C3, counterexample: a permanent entry (`entry_time is None`, the
off-maps-to-on domains) is served without the on/off reconciliation check —
here the echoed on/off (`false`) differs from the live platform on/off
(`true`), yet the cached state is returned and the entry is not evicted,
instead of falling back to the live computed state. -/
theorem c3_counterexample :
    echoSt.is_on ≠ _hass_to_hue_state scriptEntity ∧
    (_get_entity_state_dict 0 scriptEntity echoCache).1 ≠
      _build_entity_state_dict scriptEntity ∧
    List.lookup "script.s" (_get_entity_state_dict 0 scriptEntity echoCache).2 ≠
      none := by decide

/-- Claim C3 (corrected): reading the cache for an entity with an entry
returns the cached state (completed and clamped in place) unconditionally
when the entry is permanent (no expiry — the off-maps-to-on domains), and
otherwise only if the entry is unexpired and the cached on/off equals the
live platform on/off; in the remaining cases the entry is evicted and the
state is computed from the live platform state. -/
theorem c3_cache_read_amended (now : ℚ) (entity : EntityState)
    (cache : CachedStates) (st : StateDict) (tOpt : Option ℚ)
    (h : List.lookup entity.entity_id cache = some (st, tOpt)) :
    (tOpt = none →
      _get_entity_state_dict now entity cache =
        (_fill_cached_state st,
         dictInsert entity.entity_id (_fill_cached_state st, none) cache)) ∧
    (∀ t, tOpt = some t → now - t < CACHE_TIMEOUT →
      st.is_on = _hass_to_hue_state entity →
      _get_entity_state_dict now entity cache =
        (_fill_cached_state st,
         dictInsert entity.entity_id (_fill_cached_state st, some t) cache)) ∧
    (∀ t, tOpt = some t →
      ¬(now - t < CACHE_TIMEOUT ∧ st.is_on = _hass_to_hue_state entity) →
      _get_entity_state_dict now entity cache =
        (_build_entity_state_dict entity, dictErase entity.entity_id cache)) := by
  refine ⟨?_, ?_, ?_⟩
  · intro ht
    subst ht
    simp [_get_entity_state_dict, h]
  · intro t ht hfresh hmatch
    subst ht
    simp [_get_entity_state_dict, h, hfresh, hmatch]
  · intro t ht hnot
    subst ht
    have : ¬(now - t < CACHE_TIMEOUT) ∨ ¬(st.is_on = _hass_to_hue_state entity) := by
      by_contra hc
      push_neg at hc
      exact hnot ⟨hc.1, hc.2⟩
    rcases this with hc | hc
    · simp [_get_entity_state_dict, h, hc]
    · simp [_get_entity_state_dict, h, hc]

/-- Witness for C3: the permanent entry of the example cache is served with
its in-place completion, and the cache keeps the (completed) entry. -/
theorem c3_witness :
    _get_entity_state_dict 0 scriptEntity echoCache =
      (_fill_cached_state echoSt,
       dictInsert "script.s" (_fill_cached_state echoSt, none) echoCache) :=
  (c3_cache_read_amended 0 scriptEntity echoCache echoSt none rfl).1 rfl

/-! ## Association-list lemmas -/

theorem lookup_mem [BEq κ] [LawfulBEq κ] {l : List (κ × α)} {k : κ} {v : α}
    (h : List.lookup k l = some v) : (k, v) ∈ l := by
  induction l with
  | nil => simp [List.lookup] at h
  | cons hd t ih =>
    cases hbk : (k == hd.1) with
    | true =>
      rw [List.lookup_cons, hbk] at h
      have h1 : hd = (k, v) := by
        rcases hd with ⟨a, b⟩
        have ha : k = a := eq_of_beq hbk
        simp at h
        simp [ha, h]
      simp [h1]
    | false =>
      rw [List.lookup_cons, hbk] at h
      exact List.mem_cons_of_mem hd (ih h)

theorem lookup_isSome_ex {l : List (κ × α)} {k : κ} [BEq κ] [LawfulBEq κ]
    (h : (List.lookup k l).isSome) : ∃ v, List.lookup k l = some v := by
  cases hl : List.lookup k l with
  | none => rw [hl] at h; simp at h
  | some v => exact ⟨v, rfl⟩

theorem mem_dictInsert [BEq κ] {l : List (κ × α)} {k : κ} {v : α} {p : κ × α}
    (h : p ∈ dictInsert k v l) : p = (k, v) ∨ p ∈ l := by
  induction l with
  | nil => simpa [dictInsert] using h
  | cons hd t ih =>
    rw [dictInsert] at h
    by_cases hk : hd.1 == k
    · rw [if_pos hk] at h
      rcases List.mem_cons.mp h with h1 | h1
      · exact .inl h1
      · exact .inr (List.mem_cons_of_mem hd h1)
    · rw [if_neg hk] at h
      rcases List.mem_cons.mp h with h1 | h1
      · exact .inr (by simp [h1])
      · rcases ih h1 with h2 | h2
        · exact .inl h2
        · exact .inr (List.mem_cons_of_mem hd h2)

theorem lookup_dictInsert [BEq κ] [LawfulBEq κ] (l : List (κ × α)) (k : κ) (v : α) :
    List.lookup k (dictInsert k v l) = some v := by
  induction l with
  | nil => simp [dictInsert, List.lookup]
  | cons hd t ih =>
    rw [dictInsert]
    by_cases hk : hd.1 == k
    · rw [if_pos hk, List.lookup_cons]
      simp
    · rw [if_neg hk]
      have hne : (k == hd.1) = false := by
        rw [beq_eq_false_iff_ne]
        intro hc
        exact hk (by simp [hc])
      rw [List.lookup_cons, hne]
      exact ih

theorem mem_dictErase [BEq κ] {l : List (κ × α)} {k : κ} {p : κ × α}
    (h : p ∈ dictErase k l) : p ∈ l := by
  induction l with
  | nil => simpa [dictErase] using h
  | cons hd t ih =>
    rw [dictErase] at h
    by_cases hk : hd.1 == k
    · rw [if_pos hk] at h
      exact List.mem_cons_of_mem hd h
    · rw [if_neg hk] at h
      rcases List.mem_cons.mp h with h1 | h1
      · exact by simp [h1]
      · exact List.mem_cons_of_mem hd (ih h1)

theorem mem_dictErase_of_ne [BEq κ] [LawfulBEq κ] {l : List (κ × α)} {k : κ}
    {p : κ × α} (hp : p ∈ l) (hne : p.1 ≠ k) : p ∈ dictErase k l := by
  induction l with
  | nil => simpa using hp
  | cons hd t ih =>
    rw [dictErase]
    by_cases hk : hd.1 == k
    · rw [if_pos hk]
      rcases List.mem_cons.mp hp with h1 | h1
      · exact absurd (h1 ▸ eq_of_beq hk) hne
      · exact h1
    · rw [if_neg hk]
      rcases List.mem_cons.mp hp with h1 | h1
      · exact by simp [h1]
      · exact List.mem_cons_of_mem hd (ih h1)

theorem countP_dictErase_le [BEq κ] (l : List (κ × α)) (k : κ)
    (p : κ × α → Bool) : (dictErase k l).countP p ≤ l.countP p := by
  induction l with
  | nil => simp [dictErase]
  | cons hd t ih =>
    rw [dictErase]
    by_cases hk : hd.1 == k
    · rw [if_pos hk, List.countP_cons]
      by_cases hp : p hd <;> simp [hp] <;> omega
    · rw [if_neg hk, List.countP_cons, List.countP_cons]
      by_cases hp : p hd <;> simp [hp] <;> omega

theorem countP_dictInsert_balance [BEq κ] [LawfulBEq κ] {l : List (κ × α)} {k : κ}
    {d0 : α} (v : α) (p : κ × α → Bool) (h : List.lookup k l = some d0) :
    (dictInsert k v l).countP p + (if p (k, d0) then 1 else 0) =
      l.countP p + (if p (k, v) then 1 else 0) := by
  induction l with
  | nil => simp [List.lookup] at h
  | cons hd t ih =>
    rw [dictInsert]
    cases hbk : (k == hd.1) with
    | true =>
      rw [List.lookup_cons, hbk] at h
      have hd1 : (hd.1 == k) = true := by simpa using (eq_of_beq hbk).symm
      rw [if_pos hd1]
      have hhd : hd = (k, d0) := by
        rcases hd with ⟨a, b⟩
        have ha : k = a := eq_of_beq hbk
        simp at h
        simp [ha, h]
      rw [List.countP_cons, List.countP_cons, hhd]
      by_cases hp0 : p (k, d0) <;> by_cases hpv : p (k, v) <;>
        simp [hp0, hpv] <;> omega
    | false =>
      rw [List.lookup_cons, hbk] at h
      have hd1 : (hd.1 == k) = false := by
        rw [beq_eq_false_iff_ne]
        intro hc
        exact (beq_eq_false_iff_ne.mp hbk) hc.symm
      rw [if_neg (by simp [hd1])]
      rw [List.countP_cons, List.countP_cons]
      have := ih h
      by_cases hp0 : p (k, d0) <;> by_cases hpv : p (k, v) <;> by_cases hph : p hd <;>
        simp [hp0, hpv, hph] at this ⊢ <;> omega

theorem countP_find?_none {l : List α} {p : α → Bool}
    (h : l.find? p = none) : l.countP p = 0 := by
  rw [List.countP_eq_zero]
  intro a ha
  exact (List.find?_eq_none.mp h) a ha

theorem countP_append_singleton (l : List α) (x : α) (p : α → Bool) :
    (l ++ [x]).countP p = l.countP p + (if p x then 1 else 0) := by
  rw [List.countP_append, List.countP_cons]
  simp [List.countP_nil]

/-! ## Registry invariants -/

/-- Bridge between `usedIds` membership and the invariant's shape. -/
theorem mem_usedIds {m : HueDeviceManager} {j : Nat} :
    j ∈ usedIds m ↔ (∃ x, (j, x) ∈ m.devices) ∨ j ∈ m.retired_ids := by
  simp only [usedIds, activeIds, List.mem_append, List.mem_map]
  constructor
  · rintro (⟨p, hp, hpj⟩ | hj)
    · exact .inl ⟨p.2, by rcases p with ⟨a, b⟩; simp at hpj; simp [hpj] at hp ⊢; exact hp⟩
    · exact .inr hj
  · rintro (⟨x, hx⟩ | hj)
    · exact .inl ⟨(j, x), hx, rfl⟩
    · exact .inr hj

/-- The candidate scan never goes below its starting point. -/
theorem genFrom_ge (used : List Nat) : ∀ fuel c, c ≤ genFrom used fuel c := by
  intro fuel
  induction fuel with
  | zero => intro c; simp [genFrom]
  | succ n ih =>
    intro c
    rw [genFrom]
    by_cases hc : c ∈ used
    · simp only [hc, if_true]
      exact le_trans (Nat.le_succ c) (ih (c + 1))
    · simp [hc]

/-- A free starting candidate is returned at once. -/
theorem genFrom_eq_of_notMem (used : List Nat) (fuel c : Nat) (h : c ∉ used) :
    genFrom used (fuel + 1) c = c := by
  rw [genFrom]
  simp [h]

/-- The id and registry a successful create produces. -/
theorem create_ok_shape {states_exist : String → Bool} {nowIso name : String}
    {entity_id : Option String} {m : HueDeviceManager} {d : HueDevice}
    (h : (async_create_hue_device states_exist nowIso name entity_id m).1 = .ok d) :
    d.hue_id = (_generate_hue_id m).1 ∧
    (async_create_hue_device states_exist nowIso name entity_id m).2 =
      { m with
        next_id_counter := (_generate_hue_id m).1 + 1,
        devices := m.devices ++ [((_generate_hue_id m).1, d)] } := by
  cases hval : create_validation_error states_exist entity_id (_generate_hue_id m).2 with
  | some msg => simp [async_create_hue_device, hval] at h
  | none =>
    simp only [async_create_hue_device, hval] at h ⊢
    simp at h
    refine ⟨by rw [← h], ?_⟩
    rw [← h]
    rfl

/-- A failed create leaves the devices and retired set unchanged and only
advances the counter. -/
theorem create_error_shape {states_exist : String → Bool} {nowIso name : String}
    {entity_id : Option String} {m : HueDeviceManager} {msg : String}
    (h : (async_create_hue_device states_exist nowIso name entity_id m).1 = .error msg) :
    (async_create_hue_device states_exist nowIso name entity_id m).2 =
      { m with next_id_counter := (_generate_hue_id m).1 + 1 } := by
  cases hval : create_validation_error states_exist entity_id (_generate_hue_id m).2 with
  | some m' =>
    simp only [async_create_hue_device, hval]
    rfl
  | none => simp [async_create_hue_device, hval] at h

/-- The create result is ok or error. -/
theorem create_cases (states_exist : String → Bool) (nowIso name : String)
    (entity_id : Option String) (m : HueDeviceManager) :
    (∃ d, (async_create_hue_device states_exist nowIso name entity_id m).1 = .ok d) ∨
    (∃ msg, (async_create_hue_device states_exist nowIso name entity_id m).1 = .error msg) := by
  cases h : (async_create_hue_device states_exist nowIso name entity_id m).1 with
  | ok d => exact .inl ⟨d, rfl⟩
  | error msg => exact .inr ⟨msg, rfl⟩

/-- The update result registry: unchanged on an unknown id or a validation
error, an in-place device replacement otherwise. -/
theorem update_shape (states_exist : String → Bool) (nowIso : String)
    (m : HueDeviceManager) (hue_id : Nat) (name : Option String)
    (entity_arg : EntityArg) :
    (async_update_hue_device states_exist nowIso m hue_id name entity_arg).2 = m ∨
    (∃ d, (async_update_hue_device states_exist nowIso m hue_id name entity_arg).2 =
      { m with devices := dictInsert hue_id d m.devices } ∧
      (List.lookup hue_id m.devices).isSome) := by
  cases hl : List.lookup hue_id m.devices with
  | none => exact .inl (by simp [async_update_hue_device, hl])
  | some device =>
    cases hval : update_validation_error states_exist m device entity_arg with
    | some msg => exact .inl (by simp [async_update_hue_device, hl, hval])
    | none =>
      refine .inr ⟨updated_device device nowIso name entity_arg, ?_, by simp [hl]⟩
      simp [async_update_hue_device, hl, hval]

/-- `InvCounter` is preserved by every registry mutation. -/
theorem invCounter_applyOp {m : HueDeviceManager} (o : RegOp)
    (h : InvCounter m) : InvCounter (applyOp m o) := by
  obtain ⟨hdev, hret⟩ := h
  cases o with
  | create se ni nm e =>
    have hge : m.next_id_counter ≤ (_generate_hue_id m).1 :=
      genFrom_ge (usedIds m) ((usedIds m).length + 1) m.next_id_counter
    rcases create_cases se ni nm e m with ⟨d, hok⟩ | ⟨msg, herr⟩
    · rcases create_ok_shape hok with ⟨hid, hm2⟩
      rw [applyOp, hm2]
      constructor
      · intro p hp
        rcases List.mem_append.mp hp with h1 | h1
        · have := hdev p h1
          simp only []
          omega
        · simp at h1
          simp [h1]
      · intro j hj
        have := hret j hj
        simp only []
        omega
    · rw [applyOp, create_error_shape herr]
      exact ⟨fun p hp => by have := hdev p hp; simp only []; omega,
             fun j hj => by have := hret j hj; simp only []; omega⟩
  | delete i =>
    rw [applyOp, async_delete_hue_device]
    by_cases hl : (List.lookup i m.devices).isSome
    · rw [if_pos hl]
      obtain ⟨dv, hdv⟩ := lookup_isSome_ex hl
      have hik : i < m.next_id_counter := hdev (i, dv) (lookup_mem hdv)
      constructor
      · intro p hp
        exact hdev p (mem_dictErase hp)
      · intro j hj
        by_cases hir : i ∈ m.retired_ids
        · rw [if_pos hir] at hj
          exact hret j hj
        · rw [if_neg hir] at hj
          rcases List.mem_cons.mp hj with h1 | h1
          · subst h1; exact hik
          · exact hret j h1
    · rw [if_neg hl]
      exact ⟨hdev, hret⟩
  | update se ni i nm ea =>
    rw [applyOp]
    rcases update_shape se ni m i nm ea with hsame | ⟨d, hins, hlk⟩
    · rw [hsame]
      exact ⟨hdev, hret⟩
    · rw [hins]
      obtain ⟨dv, hdv⟩ := lookup_isSome_ex hlk
      have hik : i < m.next_id_counter := hdev (i, dv) (lookup_mem hdv)
      constructor
      · intro p hp
        rcases mem_dictInsert hp with h1 | h1
        · rw [h1]; exact hik
        · exact hdev p h1
      · exact hret

/-- `InvCounter` holds in every reachable registry state. -/
theorem invCounter_applyOps (ops : List RegOp) : InvCounter (applyOps ops) := by
  suffices h : ∀ m, InvCounter m → InvCounter (ops.foldl applyOp m) by
    exact h initManager ⟨by simp [initManager], by simp [initManager]⟩
  induction ops with
  | nil => intro m hm; exact hm
  | cons o t ih =>
    intro m hm
    exact ih (applyOp m o) (invCounter_applyOp o hm)

/-- The retired-ID set only ever grows. -/
theorem retired_subset_applyOp (m : HueDeviceManager) (o : RegOp) :
    ∀ j ∈ m.retired_ids, j ∈ (applyOp m o).retired_ids := by
  intro j hj
  cases o with
  | create se ni nm e =>
    rcases create_cases se ni nm e m with ⟨d, hok⟩ | ⟨msg, herr⟩
    · rw [applyOp, (create_ok_shape hok).2]
      exact hj
    · rw [applyOp, create_error_shape herr]
      exact hj
  | delete i =>
    rw [applyOp, async_delete_hue_device]
    by_cases hl : (List.lookup i m.devices).isSome
    · rw [if_pos hl]
      by_cases hir : i ∈ m.retired_ids
      · simpa [hir] using hj
      · simp [hir, hj]
    · rw [if_neg hl]
      exact hj
  | update se ni i nm ea =>
    rw [applyOp]
    rcases update_shape se ni m i nm ea with hsame | ⟨d, hins, _⟩
    · rw [hsame]; exact hj
    · rw [hins]; exact hj

/-- Claim C1 (confirmed): for every sequence of create, update and delete
operations on the registry from its fresh state, (i) the retired-ID set
grows monotonically under every further operation, (ii) deleting an active
device moves its ID into the retired-ID set, and (iii) a create that
succeeds never assigns an ID that is in the (permanently-growing) retired
set — stale IDs fail with resource-not-found rather than addressing a new
device. -/
theorem c1_retired_never_reassigned (ops : List RegOp) (o : RegOp)
    (states_exist : String → Bool) (nowIso name : String)
    (entity_id : Option String) (i : Nat) (d : HueDevice) :
    (∀ j ∈ (applyOps ops).retired_ids, j ∈ (applyOp (applyOps ops) o).retired_ids) ∧
    ((List.lookup i (applyOps ops).devices).isSome →
      i ∈ (applyOp (applyOps ops) (.delete i)).retired_ids) ∧
    ((async_create_hue_device states_exist nowIso name entity_id (applyOps ops)).1 = .ok d →
      d.hue_id ∉ (applyOps ops).retired_ids) := by
  refine ⟨retired_subset_applyOp (applyOps ops) o, ?_, ?_⟩
  · intro hl
    rw [applyOp, async_delete_hue_device, if_pos hl]
    by_cases hir : i ∈ (applyOps ops).retired_ids
    · simpa [hir] using hir
    · simp [hir]
  · intro hok
    obtain ⟨hdev, hret⟩ := invCounter_applyOps ops
    have hfree : (applyOps ops).next_id_counter ∉ usedIds (applyOps ops) := by
      intro hmem
      rcases mem_usedIds.mp hmem with ⟨x, hx⟩ | hx
      · exact absurd (hdev _ hx) (lt_irrefl _)
      · exact absurd (hret _ hx) (lt_irrefl _)
    have hgen : (_generate_hue_id (applyOps ops)).1 = (applyOps ops).next_id_counter := by
      rw [_generate_hue_id]
      exact genFrom_eq_of_notMem _ _ _ hfree
    have hid := (create_ok_shape hok).1
    rw [hid, hgen]
    intro hmem
    exact absurd (hret _ hmem) (lt_irrefl _)

/-- Witness for C1 over the example history `c1ops` (create A, create B,
delete 1): the retired id 1 survives a further delete, deleting device 2
retires id 2, and a fresh create is assigned id 3, which is not retired. -/
theorem c1_witness :
    (1 ∈ (applyOp (applyOps c1ops) (.delete 2)).retired_ids) ∧
    (2 ∈ (applyOp (applyOps c1ops) (.delete 2)).retired_ids) ∧
    ((⟨3, "C", none, "light", "t", "t", none, none⟩ : HueDevice).hue_id ∉
      (applyOps c1ops).retired_ids) :=
  ⟨(c1_retired_never_reassigned c1ops (.delete 2) (fun _ => true) "t" "C" none 2
      ⟨3, "C", none, "light", "t", "t", none, none⟩).1 1 (by decide),
   (c1_retired_never_reassigned c1ops (.delete 2) (fun _ => true) "t" "C" none 2
      ⟨3, "C", none, "light", "t", "t", none, none⟩).2.1 (by decide),
   (c1_retired_never_reassigned c1ops (.delete 2) (fun _ => true) "t" "C" none 2
      ⟨3, "C", none, "light", "t", "t", none, none⟩).2.2 (by decide)⟩

/-! ## C5: lowest-unused id assignment -/

theorem mem_dictInsert_of_ne [BEq κ] [LawfulBEq κ] {l : List (κ × α)} {k : κ}
    {v : α} {p : κ × α} (hp : p ∈ l) (hne : p.1 ≠ k) : p ∈ dictInsert k v l := by
  induction l with
  | nil => simpa using hp
  | cons hd t ih =>
    rw [dictInsert]
    by_cases hk : hd.1 == k
    · rcases List.mem_cons.mp hp with h1 | h1
      · exact absurd (h1 ▸ eq_of_beq hk) hne
      · rw [if_pos hk]
        exact List.mem_cons_of_mem _ h1
    · rw [if_neg hk]
      rcases List.mem_cons.mp hp with h1 | h1
      · exact by simp [h1]
      · exact List.mem_cons_of_mem hd (ih h1)

/-- `InvExact` is preserved by every checked registry mutation. -/
theorem invExact_applyOpChecked {m m' : HueDeviceManager} (o : RegOp)
    (h : InvExact m) (hs : applyOpChecked m o = some m') : InvExact m' := by
  obtain ⟨h1, hiff⟩ := h
  have hfree : m.next_id_counter ∉ usedIds m := by
    intro hmem
    have := (hiff m.next_id_counter).mp (mem_usedIds.mp hmem)
    omega
  cases o with
  | create se ni nm e =>
    rw [applyOpChecked] at hs
    cases hok : (async_create_hue_device se ni nm e m) with
    | mk res m2 =>
      rw [hok] at hs
      cases res with
      | error msg => simp at hs
      | ok d =>
        simp at hs
        subst hs
        have hok1 : (async_create_hue_device se ni nm e m).1 = .ok d := by
          rw [hok]
        obtain ⟨hid, hm2⟩ := create_ok_shape hok1
        have hgen : (_generate_hue_id m).1 = m.next_id_counter := by
          rw [_generate_hue_id]
          exact genFrom_eq_of_notMem _ _ _ hfree
        have hm2' : m2 = { m with
            next_id_counter := (_generate_hue_id m).1 + 1,
            devices := m.devices ++ [((_generate_hue_id m).1, d)] } := by
          rw [← hm2, hok]
        subst hm2'
        constructor
        · simp only []
          omega
        · intro j
          simp only []
          rw [hgen]
          constructor
          · rintro (⟨x, hx⟩ | hx)
            · rcases List.mem_append.mp hx with h2 | h2
              · have := (hiff j).mp (.inl ⟨x, h2⟩)
                omega
              · simp at h2
                omega
            · have := (hiff j).mp (.inr hx)
              omega
          · rintro ⟨hj1, hj2⟩
            by_cases hje : j < m.next_id_counter
            · rcases (hiff j).mpr ⟨hj1, hje⟩ with ⟨x, hx⟩ | hx
              · exact .inl ⟨x, List.mem_append.mpr (.inl hx)⟩
              · exact .inr hx
            · have hj : j = m.next_id_counter := by omega
              subst hj
              exact .inl ⟨d, List.mem_append.mpr (.inr (by simp [hgen]))⟩
  | delete i =>
    rw [applyOpChecked] at hs
    simp at hs
    subst hs
    rw [applyOp, async_delete_hue_device]
    by_cases hl : (List.lookup i m.devices).isSome
    · rw [if_pos hl]
      obtain ⟨dv, hdv⟩ := lookup_isSome_ex hl
      have hmem : (i, dv) ∈ m.devices := lookup_mem hdv
      constructor
      · simpa using h1
      · intro j
        simp only []
        constructor
        · rintro (⟨x, hx⟩ | hx)
          · exact (hiff j).mp (.inl ⟨x, mem_dictErase hx⟩)
          · by_cases hir : i ∈ m.retired_ids
            · rw [if_pos hir] at hx
              exact (hiff j).mp (.inr hx)
            · rw [if_neg hir] at hx
              rcases List.mem_cons.mp hx with h2 | h2
              · subst h2
                exact (hiff j).mp (.inl ⟨dv, hmem⟩)
              · exact (hiff j).mp (.inr h2)
        · intro hj
          rcases (hiff j).mpr hj with ⟨x, hx⟩ | hx
          · by_cases hji : j = i
            · subst hji
              refine .inr ?_
              by_cases hir : j ∈ m.retired_ids
              · rw [if_pos hir]; exact hir
              · rw [if_neg hir]; exact List.mem_cons_self _ _
            · exact .inl ⟨x, mem_dictErase_of_ne hx hji⟩
          · refine .inr ?_
            by_cases hir : i ∈ m.retired_ids
            · rw [if_pos hir]; exact hx
            · rw [if_neg hir]; exact List.mem_cons_of_mem _ hx
    · rw [if_neg hl]
      exact ⟨h1, hiff⟩
  | update se ni i nm ea =>
    rw [applyOpChecked] at hs
    simp at hs
    subst hs
    rw [applyOp]
    rcases update_shape se ni m i nm ea with hsame | ⟨d, hins, hlk⟩
    · rw [hsame]; exact ⟨h1, hiff⟩
    · rw [hins]
      obtain ⟨dv, hdv⟩ := lookup_isSome_ex hlk
      constructor
      · simpa using h1
      · intro j
        simp only []
        constructor
        · rintro (⟨x, hx⟩ | hx)
          · rcases mem_dictInsert hx with h2 | h2
            · have hj : j = i := by
                have := congrArg Prod.fst h2
                simpa using this
              subst hj
              exact (hiff j).mp (.inl ⟨dv, lookup_mem hdv⟩)
            · exact (hiff j).mp (.inl ⟨x, h2⟩)
          · exact (hiff j).mp (.inr hx)
        · intro hj
          rcases (hiff j).mpr hj with ⟨x, hx⟩ | hx
          · by_cases hji : j = i
            · subst hji
              exact .inl ⟨d, lookup_mem (lookup_dictInsert m.devices j d)⟩
            · exact .inl ⟨x, mem_dictInsert_of_ne hx hji⟩
          · exact .inr hx

/-- `InvExact` is preserved along a checked fold. -/
theorem invExact_foldlM : ∀ (ops : List RegOp) (m s : HueDeviceManager),
    InvExact m → List.foldlM applyOpChecked m ops = some s → InvExact s := by
  intro ops
  induction ops with
  | nil =>
    intro m s hm h
    simp [List.foldlM] at h
    rw [← h]
    exact hm
  | cons o t ih =>
    intro m s hm h
    rw [List.foldlM] at h
    cases hc : applyOpChecked m o with
    | none => rw [hc] at h; simp at h
    | some m1 =>
      rw [hc] at h
      simp at h
      exact ih m1 s (invExact_applyOpChecked o hm hc) h

/-- `InvExact` holds after every checked history. -/
theorem invExact_applyOpsChecked {ops : List RegOp} {s : HueDeviceManager}
    (h : applyOpsChecked ops = some s) : InvExact s := by
  have hinit : InvExact initManager := by
    refine ⟨by simp [initManager], ?_⟩
    intro j
    simp [initManager]
    omega
  exact invExact_foldlM ops initManager s hinit h

/-- Claim C5, counterexample: a create that fails validation has already
advanced the ID counter, permanently burning the ID it drew.  After the
single failed create of `c5failops` (its entity does not exist), id 1 is
neither active nor retired, yet the next successful create assigns id 2 —
not the lowest unused non-retired positive integer. -/
theorem c5_counterexample :
    (async_create_hue_device (fun _ => false) "t" "B" none (applyOps c5failops)).1 =
      .ok ⟨2, "B", none, "light", "t", "t", none, none⟩ ∧
    1 ∉ usedIds (applyOps c5failops) ∧ (1 : Nat) < 2 := by decide

/-- Claim C5 (corrected): in a state reached by a history in which every
create succeeded (a create that fails validation permanently consumes the
ID it drew, invalidating the claim in general), a successful create assigns
the lowest positive integer that is neither an active device ID nor a
retired ID at the time of the call. -/
theorem c5_lowest_id_amended (ops : List RegOp) (s : HueDeviceManager)
    (h : applyOpsChecked ops = some s)
    (states_exist : String → Bool) (nowIso name : String)
    (entity_id : Option String) (d : HueDevice)
    (hc : (async_create_hue_device states_exist nowIso name entity_id s).1 = .ok d) :
    1 ≤ d.hue_id ∧ d.hue_id ∉ usedIds s ∧
    ∀ j, 1 ≤ j → j < d.hue_id → j ∈ usedIds s := by
  obtain ⟨h1, hiff⟩ := invExact_applyOpsChecked h
  have hfree : s.next_id_counter ∉ usedIds s := by
    intro hmem
    have := (hiff s.next_id_counter).mp (mem_usedIds.mp hmem)
    omega
  have hgen : (_generate_hue_id s).1 = s.next_id_counter := by
    rw [_generate_hue_id]
    exact genFrom_eq_of_notMem _ _ _ hfree
  have hid := (create_ok_shape hc).1
  rw [hid, hgen]
  refine ⟨h1, hfree, ?_⟩
  intro j hj1 hj2
  exact mem_usedIds.mpr ((hiff j).mpr ⟨hj1, hj2⟩)

/-- Witness for C5 after the checked history `c5okops` (create A, delete A):
the next create is assigned id 2, which is at least 1, unused, and every
smaller positive id (namely 1) is already used (retired). -/
theorem c5_witness :
    1 ≤ (2 : Nat) ∧
    (2 : Nat) ∉ usedIds ⟨[], [1], 2⟩ ∧
    (1 : Nat) ∈ usedIds (⟨[], [1], 2⟩ : HueDeviceManager) := by
  have T := c5_lowest_id_amended c5okops ⟨[], [1], 2⟩ (by decide)
    (fun _ => true) "t" "B" none ⟨2, "B", none, "light", "t", "t", none, none⟩ rfl
  exact ⟨T.1, T.2.1, T.2.2 1 (by decide) (by decide)⟩

/-! ## C6: uniqueness of entity links -/

/-- When no device is linked to `e`, no device record matches `e`. -/
theorem not_linked_countP_zero {m : HueDeviceManager} {e : String}
    (h : _is_entity_already_linked m e = false) :
    m.devices.countP (fun p => p.2.entity_id == some e) = 0 := by
  unfold _is_entity_already_linked get_device_by_entity at h
  cases hf : m.devices.find? (fun p => p.2.entity_id == some e) with
  | none => exact countP_find?_none hf
  | some v => rw [hf] at h; simp at h

/-- A create validation that passes on a truthy entity implies the entity is
not linked anywhere. -/
theorem create_validation_none_not_linked {se : String → Bool}
    {eid : Option String} {m1 : HueDeviceManager}
    (ht : truthyOptStr eid = true)
    (h : create_validation_error se eid m1 = none) :
    _is_entity_already_linked m1 (eid.getD "") = false := by
  rw [create_validation_error, if_pos ht] at h
  by_cases hv : _is_valid_entity se (eid.getD "")
  · simp only [hv, Bool.not_true, Bool.false_eq_true, if_false] at h
    by_cases hl : _is_entity_already_linked m1 (eid.getD "")
    · rw [if_pos hl] at h; simp at h
    · simpa using hl
  · simp [hv] at h

/-- An update validation that passes on a changed entity implies existence,
support, and non-linkage. -/
theorem update_validation_none_parts {se : String → Bool} {m : HueDeviceManager}
    {device : HueDevice} {e : String}
    (hne : some e ≠ device.entity_id)
    (h : update_validation_error se m device (.set (some e)) = none) :
    _is_valid_entity se e = true ∧ _is_entity_already_linked m e = false := by
  rw [update_validation_error, if_pos hne] at h
  by_cases hv : _is_valid_entity se e
  · simp only [hv, Bool.not_true, Bool.false_eq_true, if_false] at h
    by_cases hl : _is_entity_already_linked m e
    · rw [if_pos hl] at h; simp at h
    · exact ⟨hv, by simpa using hl⟩
  · simp [hv] at h

/-- The link of the updated device record: the provided entity argument, or
the unchanged link when the argument was omitted. -/
theorem updated_device_entity (device : HueDevice) (nowIso : String)
    (name : Option String) (ea : EntityArg) :
    (updated_device device nowIso name ea).entity_id =
      (match ea with | .set v => v | .unset => device.entity_id) := by
  cases ea with
  | set v =>
    cases name with
    | none => rfl
    | some n =>
      by_cases h : truthyStr n <;>
        simp [updated_device, HueDevice.update_name, HueDevice.update_entity_link, h]
  | unset =>
    cases name with
    | none => rfl
    | some n =>
      by_cases h : truthyStr n <;>
        simp [updated_device, HueDevice.update_name, HueDevice.update_entity_link, h]

/-- At most one device links any nonempty entity key: preserved by every
registry mutation. -/
theorem c6inv_applyOp {m : HueDeviceManager} (o : RegOp) {e : String} (he : e ≠ "")
    (h : m.devices.countP (fun p => p.2.entity_id == some e) ≤ 1) :
    (applyOp m o).devices.countP (fun p => p.2.entity_id == some e) ≤ 1 := by
  cases o with
  | create se ni nm eid =>
    cases hval : create_validation_error se eid (_generate_hue_id m).2 with
    | some msg =>
      have herr : (async_create_hue_device se ni nm eid m).1 = .error msg := by
        simp [async_create_hue_device, hval]
      rw [applyOp, create_error_shape herr]
      exact h
    | none =>
      simp only [applyOp, async_create_hue_device, hval]
      rw [countP_append_singleton]
      show List.countP (fun p => p.2.entity_id == some e) (_generate_hue_id m).2.devices
        + (if (eid == some e) = true then 1 else 0) ≤ 1
      by_cases hmatch : (eid == some e) = true
      · have heid : eid = some e := eq_of_beq hmatch
        have ht : truthyOptStr eid = true := by
          rw [heid]
          simpa [truthyOptStr, truthyStr] using he
        have hnl := create_validation_none_not_linked ht hval
        have hz : List.countP (fun p => p.2.entity_id == some e)
            (_generate_hue_id m).2.devices = 0 := by
          have h0 := not_linked_countP_zero hnl
          rw [heid] at h0
          exact h0
        rw [hz, if_pos hmatch]
      · rw [if_neg hmatch]
        have h' : List.countP (fun p => p.2.entity_id == some e)
            (_generate_hue_id m).2.devices ≤ 1 := h
        omega
  | delete i =>
    rw [applyOp, async_delete_hue_device]
    by_cases hl : (List.lookup i m.devices).isSome
    · rw [if_pos hl]
      exact le_trans (countP_dictErase_le _ _ _) h
    · rw [if_neg hl]
      exact h
  | update se ni i nm ea =>
    cases hl : List.lookup i m.devices with
    | none =>
      simp only [applyOp, async_update_hue_device, hl]
      exact h
    | some dv =>
      cases hval : update_validation_error se m dv ea with
      | some msg =>
        simp only [applyOp, async_update_hue_device, hl, hval]
        exact h
      | none =>
        simp only [applyOp, async_update_hue_device, hl, hval]
        have hbal := countP_dictInsert_balance
          (updated_device dv ni nm ea) (fun p => p.2.entity_id == some e) hl
        simp only [] at hbal
        have hent := updated_device_entity dv ni nm ea
        by_cases hupd : (((updated_device dv ni nm ea).entity_id == some e) = true)
        · cases ea with
          | unset =>
            have hdv : (dv.entity_id == some e) = true := by
              rw [hent] at hupd
              exact hupd
            simp [hupd, hdv] at hbal
            omega
          | set v =>
            have hv : v = some e := by
              have := eq_of_beq hupd
              rw [hent] at this
              exact this
            subst hv
            by_cases hsame : some e = dv.entity_id
            · have hdv : (dv.entity_id == some e) = true := by simp [← hsame]
              simp [hupd, hdv] at hbal
              omega
            · obtain ⟨hvalid, hnl⟩ := update_validation_none_parts hsame hval
              have hz := not_linked_countP_zero hnl
              have hdv : (dv.entity_id == some e) = false := by
                rw [beq_eq_false_iff_ne]
                intro hc
                exact hsame hc.symm
              simp [hupd, hdv] at hbal
              omega
        · have hupd' : (((updated_device dv ni nm ea).entity_id == some e)) = false := by
            simpa using hupd
          by_cases hdv : (dv.entity_id == some e) = true <;>
            simp [hupd', hdv] at hbal <;>
            omega

/-- The uniqueness invariant holds in every reachable registry state. -/
theorem c6inv_applyOps (ops : List RegOp) (e : String) (he : e ≠ "") :
    (applyOps ops).devices.countP (fun p => p.2.entity_id == some e) ≤ 1 := by
  suffices h : ∀ m, m.devices.countP (fun p => p.2.entity_id == some e) ≤ 1 →
      (ops.foldl applyOp m).devices.countP (fun p => p.2.entity_id == some e) ≤ 1 by
    exact h initManager (by simp [initManager])
  induction ops with
  | nil => intro m hm; exact hm
  | cons o t ih =>
    intro m hm
    exact ih (applyOp m o) (c6inv_applyOp o he hm)

/-- Claim C6 (corrected): for every nonempty entity key `e` (the source's
Python truthiness check skips validation for the empty string, which can
therefore be multiply linked), (i) at most one device in any reachable
registry state is linked to `e`; (ii) creating a device with `e` while `e`
is linked to another device raises a validation error; (iii) updating a
device whose link differs from `e` to `e` while `e` is linked elsewhere
raises a validation error; (iv) once no device is linked to `e` (after an
unlink or delete), updating any existing device to `e` succeeds when `e` is
a valid platform entity, and links it. -/
theorem c6_unique_entity_link_amended (ops : List RegOp) (e : String) (he : e ≠ "")
    (states_exist : String → Bool) (nowIso cname : String)
    (b : Nat) (dv : HueDevice) :
    ((applyOps ops).devices.countP (fun p => p.2.entity_id == some e) ≤ 1) ∧
    (_is_entity_already_linked (applyOps ops) e = true →
      ∀ d', (async_create_hue_device states_exist nowIso cname (some e)
        (applyOps ops)).1 ≠ .ok d') ∧
    (List.lookup b (applyOps ops).devices = some dv →
      dv.entity_id ≠ some e →
      _is_entity_already_linked (applyOps ops) e = true →
      ∀ r, (async_update_hue_device states_exist nowIso (applyOps ops) b none
        (.set (some e))).1 ≠ .ok r) ∧
    (List.lookup b (applyOps ops).devices = some dv →
      _is_entity_already_linked (applyOps ops) e = false →
      _is_valid_entity states_exist e = true →
      (async_update_hue_device states_exist nowIso (applyOps ops) b none
        (.set (some e))).1 = .ok true ∧
      List.lookup b (async_update_hue_device states_exist nowIso (applyOps ops) b none
        (.set (some e))).2.devices =
        some (updated_device dv nowIso none (.set (some e)))) := by
  refine ⟨c6inv_applyOps ops e he, ?_, ?_, ?_⟩
  · intro hlinked d' hok
    cases hval : create_validation_error states_exist (some e)
        (_generate_hue_id (applyOps ops)).2 with
    | some msg => simp [async_create_hue_device, hval] at hok
    | none =>
      have ht : truthyOptStr (some e) = true := by
        simpa [truthyOptStr, truthyStr] using he
      have hnl := create_validation_none_not_linked ht hval
      have hb : _is_entity_already_linked (_generate_hue_id (applyOps ops)).2
          ((some e).getD "") = _is_entity_already_linked (applyOps ops) e := rfl
      rw [hb, hlinked] at hnl
      simp at hnl
  · intro hlook hne2 hlinked r hok
    have hcond : some e ≠ dv.entity_id := fun hc => hne2 hc.symm
    have hval : ∃ msg, update_validation_error states_exist (applyOps ops) dv
        (.set (some e)) = some msg := by
      rw [update_validation_error, if_pos hcond]
      by_cases hv : _is_valid_entity states_exist e
      · simp [hv, hlinked]
      · simp [hv]
    obtain ⟨msg, hmsg⟩ := hval
    simp [async_update_hue_device, hlook, hmsg] at hok
  · intro hlook hnl hvalid
    have hval : update_validation_error states_exist (applyOps ops) dv
        (.set (some e)) = none := by
      rw [update_validation_error]
      by_cases hsame : some e ≠ dv.entity_id
      · rw [if_pos hsame]
        simp [hvalid, hnl]
      · rw [if_neg hsame]
    constructor
    · simp [async_update_hue_device, hlook, hval]
    · simp only [async_update_hue_device, hlook, hval]
      exact lookup_dictInsert _ _ _

/-- Claim C6, counterexample: `if entity_id:` treats the empty string as
falsy, so `async_create_hue_device` skips all validation for it yet still
stores it as the link — after two such creates, two distinct devices are
both linked (`is_linked` is true for both) to the same entity key `""`, and
neither create raised. -/
theorem c6_counterexample :
    (applyOps c6emptyops).devices.countP (fun p => p.2.entity_id == some "") = 2 ∧
    (applyOps c6emptyops).devices.map (fun p => (p.1, p.2.entity_id, p.2.is_linked)) =
      [(1, some "", true), (2, some "", true)] := by decide

/-- Witness for C6: in the two-device example state, the `light.a` link is
unique, a create against the linked `light.a` fails, an update of device 2
to the linked `light.a` fails; and after unlinking device 1, updating
device 2 to `light.a` succeeds and links it. -/
theorem c6_witness :
    ((applyOps c6ops2).devices.countP (fun p => p.2.entity_id == some "light.a") ≤ 1) ∧
    ((async_create_hue_device exStates "t" "C" (some "light.a") (applyOps c6ops2)).1 ≠
      .ok ⟨3, "C", some "light.a", "light", "t", "t", none, none⟩) ∧
    ((async_update_hue_device exStates "t" (applyOps c6ops2) 2 none
        (.set (some "light.a"))).1 ≠ .ok true) ∧
    ((async_update_hue_device exStates "t" (applyOps c6ops3) 2 none
        (.set (some "light.a"))).1 = .ok true) ∧
    (List.lookup 2 (async_update_hue_device exStates "t" (applyOps c6ops3) 2 none
        (.set (some "light.a"))).2.devices =
      some (updated_device ⟨2, "B", none, "light", "t", "t", none, none⟩ "t" none
        (.set (some "light.a")))) := by
  have W1 := c6_unique_entity_link_amended c6ops2 "light.a" (by decide) exStates "t" "C"
    2 ⟨2, "B", none, "light", "t", "t", none, none⟩
  have W2 := c6_unique_entity_link_amended c6ops3 "light.a" (by decide) exStates "t" "C"
    2 ⟨2, "B", none, "light", "t", "t", none, none⟩
  have W2d := W2.2.2.2 (by decide) (by decide) (by decide)
  exact ⟨W1.1,
    W1.2.1 (by decide) ⟨3, "C", some "light.a", "light", "t", "t", none, none⟩,
    W1.2.2.1 (by decide) (by decide) (by decide) true,
    W2d.1, W2d.2⟩

/-! ## C9 and C10: emitted light resources -/

theorem clampOpt_isSome (lo hi : Int) (o : Option Int) :
    (clampOpt lo hi o).isSome = o.isSome := by
  cases o <;> rfl

theorem clampOpt_bounds {lo hi v : Int} {o : Option Int} (hlh : lo ≤ hi)
    (h : clampOpt lo hi o = some v) : lo ≤ v ∧ v ≤ hi := by
  cases o with
  | none => simp [clampOpt] at h
  | some x =>
    simp only [clampOpt, Option.some.injEq] at h
    rw [← h]
    exact ⟨le_max_left _ _, max_le hlh (min_le_right _ _)⟩

theorem clamp_inBounds (x : StateDict) (hb : x.bri.isSome = true) :
    DictInBounds (_clamp_values x) := by
  refine ⟨?_, ?_, ?_, ?_, ?_⟩
  · rw [show (_clamp_values x).bri = clampOpt HUE_API_STATE_BRI_MIN HUE_API_STATE_BRI_MAX x.bri from rfl]
    rw [clampOpt_isSome]
    exact hb
  · intro v h
    exact clampOpt_bounds (by decide) h
  · intro v h
    exact clampOpt_bounds (by decide) h
  · intro v h
    exact clampOpt_bounds (by decide) h
  · intro v h
    exact clampOpt_bounds (by decide) h

theorem build_inBounds (entity : EntityState) :
    DictInBounds (_build_entity_state_dict entity) := by
  unfold _build_entity_state_dict
  apply clamp_inBounds
  split
  · rfl
  · split
    · rfl
    · split
      · rfl
      · split
        · rfl
        · split
          · rfl
          · split <;> rfl

theorem fill_inBounds (st : StateDict) : DictInBounds (_fill_cached_state st) := by
  unfold _fill_cached_state
  apply clamp_inBounds
  repeat' split
  all_goals simp_all [Option.isSome_iff_ne_none]

theorem get_state_dict_inBounds (now : ℚ) (entity : EntityState)
    (cache : CachedStates) :
    DictInBounds (_get_entity_state_dict now entity cache).1 := by
  unfold _get_entity_state_dict
  cases h : List.lookup entity.entity_id cache with
  | none =>
    simp only [h]
    exact build_inBounds entity
  | some ent =>
    rcases ent with ⟨st, t⟩
    simp only [h]
    split
    · exact fill_inBounds st
    · exact build_inBounds entity

/-- Claim C10 (confirmed): for every linked device whose platform entity
exists, every numeric field emitted in its Hue light resource lies within
the Hue API bounds — bri in [1,254], hue in [0,65535], sat in [0,254], ct in
[153,500] — and in particular bri is present (and hence at least 1, even
when the device is off) in every resource type that carries it, i.e. every
type except "On/Off light". -/
theorem c10_emitted_bounds (now : ℚ) (states : List (String × EntityState))
    (device : HueDevice) (cache : CachedStates) (eid : String) (entity : EntityState)
    (hl : device.entity_id = some eid) (hne : eid ≠ "")
    (hs : List.lookup eid states = some entity) :
    (∀ v, (device_to_json now states device cache).1.state.bri = some v →
      1 ≤ v ∧ v ≤ 254) ∧
    (∀ v, (device_to_json now states device cache).1.state.hue = some v →
      0 ≤ v ∧ v ≤ 65535) ∧
    (∀ v, (device_to_json now states device cache).1.state.sat = some v →
      0 ≤ v ∧ v ≤ 254) ∧
    (∀ v, (device_to_json now states device cache).1.state.ct = some v →
      153 ≤ v ∧ v ≤ 500) ∧
    ((device_to_json now states device cache).1.light_type ≠ "On/Off light" →
      (device_to_json now states device cache).1.state.bri.isSome = true) := by
  have htr : truthyOptStr device.entity_id = true := by
    rw [hl]
    simpa [truthyOptStr, truthyStr] using hne
  have hgd : device.entity_id.getD "" = eid := by rw [hl]; rfl
  obtain ⟨hb, hbri, hhue, hsat, hct⟩ := get_state_dict_inBounds now entity cache
  rw [device_to_json]
  rw [htr]
  simp only [Bool.not_true, Bool.false_eq_true, if_false, hgd, hs]
  split
  · exact ⟨hbri, hhue, hsat, hct, fun _ => hb⟩
  · split
    · exact ⟨hbri, hhue, hsat, fun v h => by simp at h, fun _ => hb⟩
    · split
      · exact ⟨hbri, fun v h => by simp at h, fun v h => by simp at h, hct, fun _ => hb⟩
      · split
        · exact ⟨hbri, fun v h => by simp at h, fun v h => by simp at h,
            fun v h => by simp at h, fun _ => hb⟩
        · exact ⟨fun v h => by simp at h, fun v h => by simp at h,
            fun v h => by simp at h, fun v h => by simp at h,
            fun hty => absurd rfl hty⟩

/-- Witness for C10 on the example color light: the hypotheses hold and the
emitted resource is brightness-bearing. -/
theorem c10_witness :
    (∀ v, (device_to_json 0 colorStates colorDevice []).1.state.bri = some v →
      1 ≤ v ∧ v ≤ 254) ∧
    ((device_to_json 0 colorStates colorDevice []).1.light_type ≠ "On/Off light" →
      (device_to_json 0 colorStates colorDevice []).1.state.bri.isSome = true) := by
  have T := c10_emitted_bounds 0 colorStates colorDevice [] "light.c" colorEntity
    rfl (by decide) rfl
  exact ⟨T.1, T.2.2.2.2⟩

/-- Claim C9, counterexample: a "Color light" resource (color support
without color-temperature support) always reports `colormode = "hs"`, even
when both the reported hue and sat are 0 — where the claimed rule requires
"ct". -/
theorem c9_colormode_counterexample :
    (device_to_json 0 colorStates colorDevice []).1.state.colormode = some "hs" ∧
    (device_to_json 0 colorStates colorDevice []).1.state.hue = some 0 ∧
    (device_to_json 0 colorStates colorDevice []).1.state.sat = some 0 := by decide

/-- Claim C9 (corrected): the hue/sat-derived colormode rule ("hs" if
hue > 0 or sat > 0, else "ct") governs only "Extended color light"
resources; "Color light" resources always carry colormode "hs", "Color
temperature light" resources always carry colormode "ct", and the remaining
resource types carry no colormode field at all. -/
theorem c9_colormode_amended (now : ℚ) (states : List (String × EntityState))
    (device : HueDevice) (cache : CachedStates) :
    ((device_to_json now states device cache).1.light_type = "Extended color light" →
      (device_to_json now states device cache).1.state.colormode =
        some (if (device_to_json now states device cache).1.state.hue.getD 0 > 0
                 || (device_to_json now states device cache).1.state.sat.getD 0 > 0
              then "hs" else "ct")) ∧
    ((device_to_json now states device cache).1.light_type = "Color light" →
      (device_to_json now states device cache).1.state.colormode = some "hs") ∧
    ((device_to_json now states device cache).1.light_type = "Color temperature light" →
      (device_to_json now states device cache).1.state.colormode = some "ct") ∧
    ((device_to_json now states device cache).1.light_type = "Dimmable light" ∨
        (device_to_json now states device cache).1.light_type = "On/Off light" →
      (device_to_json now states device cache).1.state.colormode = none) := by
  rw [device_to_json]
  by_cases htr : truthyOptStr device.entity_id = true
  · rw [htr]
    simp only [Bool.not_true, Bool.false_eq_true, if_false]
    cases hs : List.lookup (device.entity_id.getD "") states with
    | none =>
      simp only [hs]
      exact ⟨fun h => by simp [unreachableResource] at h,
        fun h => by simp [unreachableResource] at h,
        fun h => by simp [unreachableResource] at h, fun _ => rfl⟩
    | some entity =>
      simp only [hs]
      split
      · exact ⟨fun _ => rfl, fun h => by simp at h, fun h => by simp at h,
          fun h => by rcases h with h | h <;> simp at h⟩
      · split
        · exact ⟨fun h => by simp at h, fun _ => rfl, fun h => by simp at h,
            fun h => by rcases h with h | h <;> simp at h⟩
        · split
          · exact ⟨fun h => by simp at h, fun h => by simp at h, fun _ => rfl,
              fun h => by rcases h with h | h <;> simp at h⟩
          · split
            · exact ⟨fun h => by simp at h, fun h => by simp at h,
                fun h => by simp at h, fun _ => rfl⟩
            · exact ⟨fun h => by simp at h, fun h => by simp at h,
                fun h => by simp at h, fun _ => rfl⟩
  · have htr' : truthyOptStr device.entity_id = false := by simpa using htr
    rw [htr']
    exact ⟨fun h => by simp [unreachableResource] at h,
      fun h => by simp [unreachableResource] at h,
      fun h => by simp [unreachableResource] at h, fun _ => rfl⟩

/-- Witness for C9 on the example color light: its resource type is "Color
light" and its colormode is "hs". -/
theorem c9_witness :
    (device_to_json 0 colorStates colorDevice []).1.state.colormode = some "hs" :=
  (c9_colormode_amended 0 colorStates colorDevice []).2.1 (by decide)

/-! ## C4: the confirmation wait -/

/-- Claim C4 (confirmed): on the successful path of the light-change
pipeline, (i) a confirmation wait is entered only when the requested on/off
differs from the platform's on/off immediately before dispatch; (ii) any
wait entered is bounded by `STATE_CHANGE_TIMEOUT` (the default 5 time-units
— `_wait_for_state_change_or_timeout` ignores the `CACHE_TIMEOUT` the call
site passes and applies `STATE_CHANGE_TIMEOUT`); (iii) the response is the
success array built from the parsed (requested) state; and (iv) the response
does not depend on whether the wait ended by timeout or by a state change —
timing out is not an error. -/
theorem c4_confirmation_wait (w : World) (remote username : String) (n : Nat)
    (body : PutBody) (to1 to2 : Bool) (device : HueDevice) (eid : String)
    (entity : EntityState) (parsed0 : StateDict)
    (hdev : List.lookup n w.manager.devices = some device)
    (hlink : device.entity_id = some eid) (hne : eid ≠ "")
    (hent : List.lookup eid w.states = some entity)
    (hparse : _parse_hue_request entity body = some parsed0) :
    ((putOneLightChange w remote true username n (some body) to1).wait_bound ≠ none →
      (_interpret_brightness entity body.bri.isSome parsed0).is_on ≠
        _hass_to_hue_state entity) ∧
    (∀ q, (putOneLightChange w remote true username n (some body) to1).wait_bound = some q →
      q = STATE_CHANGE_TIMEOUT) ∧
    ((putOneLightChange w remote true username n (some body) to1).response =
      ⟨200, .successList (_build_success_list n
        (_interpret_brightness entity body.bri.isSome parsed0))⟩) ∧
    ((putOneLightChange w remote true username n (some body) to1).response =
      (putOneLightChange w remote true username n (some body) to2).response) := by
  have hacc : (device.record_access w.nowIso remote).entity_id = some eid := hlink
  have htr : truthyOptStr (device.record_access w.nowIso remote).entity_id = true := by
    rw [hacc]
    simpa [truthyOptStr, truthyStr] using hne
  have hgd : (device.record_access w.nowIso remote).entity_id.getD "" = eid := by
    rw [hacc]
    rfl
  simp only [putOneLightChange, hdev, Bool.not_true, Bool.false_eq_true, if_false,
    htr, hgd, hent, hparse]
  refine ⟨?_, ?_, ?_, ?_⟩
  · intro hw
    cases hsvc : (_choose_command entity
        (_interpret_brightness entity body.bri.isSome parsed0)).service with
    | none => simp [hsvc] at hw
    | some svc =>
      simp only [hsvc] at hw
      by_cases hswc : ((_interpret_brightness entity body.bri.isSome parsed0).is_on !=
          _hass_to_hue_state entity) = true
      · exact fun hc => by simp [hc] at hswc
      · have hb : ((_interpret_brightness entity body.bri.isSome parsed0).is_on !=
            _hass_to_hue_state entity) = false := by simpa using hswc
        simp [hb] at hw
  · intro q hq
    cases hsvc : (_choose_command entity
        (_interpret_brightness entity body.bri.isSome parsed0)).service with
    | none => simp [hsvc] at hq
    | some svc =>
      simp only [hsvc] at hq
      by_cases hswc : ((_interpret_brightness entity body.bri.isSome parsed0).is_on !=
          _hass_to_hue_state entity) = true
      · simp [hswc] at hq
        rw [← hq]
        rfl
      · have hb : ((_interpret_brightness entity body.bri.isSome parsed0).is_on !=
            _hass_to_hue_state entity) = false := by simpa using hswc
        simp [hb] at hq
  · trivial
  · trivial

/-- Witness for C4: `PUT lights/1/state {"on": true}` against the example
world (device 1 linked to the off light `light.l1`): the wait, when entered,
is because the requested on/off differs from the platform's, its bound is
`STATE_CHANGE_TIMEOUT`, and the response is the success array for the parsed
state, independent of the wait's outcome. -/
theorem c4_witness :
    ((putOneLightChange exWorld "192.168.1.9" true "nouser" 1 (some onBody)
        true).wait_bound ≠ none →
      (_interpret_brightness plainEntity onBody.bri.isSome
        ⟨true, none, none, none, none, none, none⟩).is_on ≠
        _hass_to_hue_state plainEntity) ∧
    (∀ q, (putOneLightChange exWorld "192.168.1.9" true "nouser" 1 (some onBody)
        true).wait_bound = some q → q = STATE_CHANGE_TIMEOUT) ∧
    ((putOneLightChange exWorld "192.168.1.9" true "nouser" 1 (some onBody)
        true).response =
      ⟨200, .successList (_build_success_list 1
        (_interpret_brightness plainEntity onBody.bri.isSome
          ⟨true, none, none, none, none, none, none⟩))⟩) ∧
    ((putOneLightChange exWorld "192.168.1.9" true "nouser" 1 (some onBody)
        true).response =
      (putOneLightChange exWorld "192.168.1.9" true "nouser" 1 (some onBody)
        false).response) :=
  c4_confirmation_wait exWorld "192.168.1.9" "nouser" 1 onBody true false
    plainDevice "light.l1" plainEntity ⟨true, none, none, none, none, none, none⟩
    rfl rfl (by decide) rfl rfl

end EmulatedHue
